import Mathlib

/-!
# SharpProj: operation resolution, transform execution and CRS caches

A shallow embedding of the C++/CLI sources

* `src/SharpProj/CoordinateTransform.cpp`
* `src/ProjSharp/CoordinateOperation.cpp`
* `src/SharpProj/CoordinateReferenceSystem.cpp` / `.h`
* `src/SharpProj/CoordinateReferenceSystemList.cpp`
* `src/SharpProj/ProjContext.cpp`
* `src/SharpProj/ProjObject.h`

Conventions of the embedding.

* A native `PJ*` is `Option PJ`: `none` is `nullptr`.
* The native library (PROJ) is an `Engine`: a record of the answers it gives.
  General theorems quantify over all engines; evaluations at one input use
  `Sample.engine`.
* Managed objects are values; a method that mutates `this` returns the new
  object next to its result.  The one `ProjContext` that all objects of a call
  share is threaded the same way; its field `calls` records, oldest first, the
  native calls that were issued.
* An exception is the `error` case of `Except Exn _`; the state reached when it
  was thrown is still returned.
* A `double` is only moved around, tested with `double::IsNaN` and handed to
  the engine, so it is either a NaN or a number named by an integer code.
-/

namespace SharpProj

/-! ## Native values -/

/-- A non-null native object pointer `PJ*`. -/
abbrev PJ := Nat

/-- A `double`: a NaN, or a non-NaN value named by an integer code. -/
inductive Double where
  | nan
  | num (code : Int)
deriving DecidableEq, Repr

/-- The test `double::IsNaN`. -/
def Double.IsNaN : Double → Bool
  | .nan => true
  | .num _ => false

/-- The union `PJ_COORD`, read through its member `v[0..3]`
(`xy.x`, `xyz.x` are `v[0]`, `xy.y`, `xyz.y` are `v[1]`, `xyz.z` is `v[2]`). -/
structure PJ_COORD where
  v0 : Double
  v1 : Double
  v2 : Double
  v3 : Double
deriving DecidableEq, Repr

/-- The value of `PJ_COORD c = {}`: every member zero. -/
def PJ_COORD.zero : PJ_COORD :=
  { v0 := .num 0, v1 := .num 0, v2 := .num 0, v3 := .num 0 }

/-- Some component of the coordinate is a NaN. -/
def PJ_COORD.anyNaN (c : PJ_COORD) : Bool :=
  c.v0.IsNaN || c.v1.IsNaN || c.v2.IsNaN || c.v3.IsNaN

/-- The enum `ProjType` of ProjObject.h. -/
inductive ProjType where
  | Unknown | Ellipsoid | PrimeMeridian
  | GeodeticReferenceFrame | DynamicGeodeticReferenceFrame
  | VerticalReferenceFrame | DynamicVerticalReferenceFrame | DatumEnsamble
  | CRS | GeodeticCrs | GeocentricCrs | GeographicCrs | Geographic2DCrs | Geographic3DCrs
  | VerticalCrs | ProjectedCrs | CompoundCrs | TemporalCrs | EngineeringCrs | BoundCrs | OtherCrs
  | Conversion | Transformation | ConcatenatedOperation | OtherCoordinateTransform
  | TemporalDatum | EngineeringDatum | ParametricDatum
  | ChooseTransform | CoordinateSystem
deriving DecidableEq, Repr

/-- The values of `PROJ_SPATIAL_CRITERION` (proj.h). -/
inductive PROJ_SPATIAL_CRITERION where
  | STRICT_CONTAINMENT | PARTIAL_INTERSECTION
deriving DecidableEq, Repr

/-- The values of `PROJ_GRID_AVAILABILITY_USE` (proj.h). -/
inductive PROJ_GRID_AVAILABILITY_USE where
  | USED_FOR_SORTING | DISCARD_OPERATION_IF_MISSING_GRID | IGNORED | KNOWN_AVAILABLE
deriving DecidableEq, Repr

/-- The values of `PROJ_INTERMEDIATE_CRS_USE` (proj.h). -/
inductive PROJ_INTERMEDIATE_CRS_USE where
  | ALWAYS | IF_NO_DIRECT_TRANSFORMATION | NEVER
deriving DecidableEq, Repr

/-- The values of `PJ_WKT_TYPE` (proj.h).  `PJ_WKT2_2018` and
`PJ_WKT2_2018_SIMPLIFIED` are other names of `WKT2_2019` and
`WKT2_2019_SIMPLIFIED`. -/
inductive PJ_WKT_TYPE where
  | WKT2_2015 | WKT2_2015_SIMPLIFIED | WKT2_2019 | WKT2_2019_SIMPLIFIED | WKT1_GDAL | WKT1_ESRI
deriving DecidableEq, Repr

/-- The native `PJ_OPERATION_FACTORY_CONTEXT`, as the setters of
`Create` leave it. -/
structure OperationFactoryContext where
  authority : Option String
  allow_ballpark_transformations : Bool
  desired_accuracy : Option Double
  area_of_interest : Option (Double × Double × Double × Double)
  spatial_criterion : Option PROJ_SPATIAL_CRITERION
  grid_availability_use : PROJ_GRID_AVAILABILITY_USE
  use_proj_alternative_grid_names : Bool
  allow_use_intermediate_crs : PROJ_INTERMEDIATE_CRS_USE
  discard_superseded : Bool
deriving DecidableEq, Repr

/-- A native `PJ_OBJ_LIST`: entry `i` is what `proj_list_get(ctx, list, i)`
returns, `nullptr` included; `proj_list_get_count` is its length. -/
abbrev PJ_OBJ_LIST := List (Option PJ)

/-- The answers of the native library. -/
structure Engine where
  proj_create_operation_factory_context : Option String → Bool
  proj_context_is_network_enabled : Bool
  proj_create_operations : PJ → PJ → OperationFactoryContext → Option PJ_OBJ_LIST
  proj_get_type : PJ → ProjType
  proj_context_errno : Int
  proj_errno_string : Int → Option String
  proj_trans : PJ → Bool → PJ_COORD → PJ_COORD
  proj_get_source_crs : PJ → Option PJ
  proj_get_target_crs : PJ → Option PJ
  proj_crs_get_coordinate_system : PJ → Option PJ
  proj_cs_get_axis_count : PJ → Int
  proj_crs_get_geodetic_crs : PJ → Option PJ
  proj_crs_get_datum : PJ → Option PJ
  proj_crs_get_datum_ensemble : PJ → Option PJ
  proj_lp_dist : PJ → PJ_COORD → PJ_COORD → Double
  proj_lpz_dist : PJ → PJ_COORD → PJ_COORD → Double
  proj_geod : PJ → PJ_COORD → PJ_COORD → PJ_COORD
  proj_get_ellipsoid : PJ → Option PJ
  proj_get_prime_meridian : PJ → Option PJ
  proj_normalize_for_visualization : PJ → Option PJ
  proj_get_name : PJ → Option String
  proj_pj_info_definition : PJ → Option String
  proj_get_scope : PJ → Option String
  proj_get_area_of_use : PJ → Option (Double × Double × Double × Double × Option String)
  proj_as_wkt : PJ → PJ_WKT_TYPE → List String → Option String
  proj_create : String → Option PJ
  proj_is_crs : PJ → Bool
  proj_context_get_user_writable_directory : Option String

/-- A native call, as recorded in `ProjContext.calls`. -/
inductive Call where
  | proj_create_operation_factory_context
  | proj_create_operations (source target : PJ)
  | proj_operation_factory_context_destroy
  | proj_list_get_count
  | proj_list_get (index : Nat)
  | proj_list_destroy
  | proj_get_type (pj : PJ)
  | proj_context_errno
  | proj_trans (pj : PJ)
  | proj_get_source_crs (pj : PJ)
  | proj_get_target_crs (pj : PJ)
  | proj_crs_get_coordinate_system (pj : PJ)
  | proj_cs_get_axis_count (pj : PJ)
  | proj_crs_get_geodetic_crs (pj : PJ)
  | proj_crs_get_datum (pj : PJ)
  | proj_crs_get_datum_ensemble (pj : PJ)
  | proj_destroy (pj : PJ)
  | proj_get_ellipsoid (pj : PJ)
  | proj_get_prime_meridian (pj : PJ)
  | proj_normalize_for_visualization (pj : PJ)
  | proj_get_name (pj : PJ)
  | proj_pj_info (pj : PJ)
  | proj_get_scope (pj : PJ)
  | proj_get_area_of_use (pj : PJ)
  | proj_as_wkt (pj : PJ) (type : PJ_WKT_TYPE) (options : List String)
  | proj_create (definition : String)
  | proj_is_crs (pj : PJ)
deriving DecidableEq, Repr

/-! ## Exceptions and the context -/

/-- The exceptions the modelled code throws.  A `ProjException` carries its
message and, when it has an inner `ProjException`, that one's message. -/
inductive Exn where
  | ArgumentNullException (param : String)
  | ArgumentOutOfRangeException
  | NullReferenceException
  | ObjectDisposedException (message : String)
  | ProjException (message : Option String) (inner : Option String)
  | IOException
  | WebException
  | InvalidOperationException
deriving DecidableEq, Repr

/-- The managed `ProjContext`: its last-error slot, and the native calls issued
so far (oldest first). -/
structure ProjContext where
  m_lastError : Option String
  calls : List Call
deriving DecidableEq, Repr

/-- Record one native call. -/
def ProjContext.call (ctx : ProjContext) (c : Call) : ProjContext :=
  { ctx with calls := ctx.calls ++ [c] }

/-- Method `ProjContext::ConstructException` (ProjContext.cpp 168-184). -/
def ProjContext.ConstructException (E : Engine) (ctx : ProjContext) : Exn × ProjContext :=
  let ctx := ctx.call .proj_context_errno
  let err := E.proj_context_errno
  match ctx.m_lastError with
  | some msg =>
    (.ProjException (E.proj_errno_string err) (some msg), { ctx with m_lastError := none })
  | none =>
    (.ProjException (E.proj_errno_string err) none, ctx)

/-- Modelled from the spec: `ProjContext::ClearError` is declared in
ProjContext.h, which is not under src; section 4.2 step 2 says "Clear any
pending error state on the Context": the last-error slot is emptied. -/
def ProjContext.ClearError (ctx : ProjContext) : ProjContext :=
  { ctx with m_lastError := none }

/-! ## Managed objects -/

/-- A wrapper whose class adds nothing to `ProjObject` that this development
uses (CoordinateSystem, Ellipsoid, Datum, PrimeMeridian: their headers are not
under src): the owned native handle `m_pj`, `none` once disposed. -/
structure ProjObject where
  m_pj : Option PJ
deriving DecidableEq, Repr

/-- The run-time class of a CRS object, as far as the code asks for it:
`geodetic` when `dynamic_cast<Proj::GeodeticCRS^>(this)` succeeds, `list` for a
`CoordinateReferenceSystemList`, `plain` otherwise. -/
inductive CrsClass where
  | plain | geodetic | list
deriving DecidableEq, Repr

mutual
/-- The class `CoordinateReferenceSystem` (CoordinateReferenceSystem.h 22-35):
the handle of its base `ProjObject`, its run-time class, its cache fields in the
order of the header, and the components `this[0]`, `this[1]`, ... when it is a
`CoordinateReferenceSystemList`. -/
inductive CoordinateReferenceSystem where
  | mk (m_pj : Option PJ) (cls : CrsClass)
      (m_cs : Option ProjObject)
      (m_geodCRS : GeodeticSlot)
      (m_ellipsoid : Option ProjObject)
      (m_datum : Option ProjObject)
      (m_primeMeridian : Option ProjObject)
      (m_baseCrs : Option CoordinateReferenceSystem)
      (m_distanceTransform : Option CoordinateTransform)
      (m_axis : Int)
      (items : List CoordinateReferenceSystem)
/-- The reference held in `m_geodCRS`: `nullptr`, the owner itself
(assigned at CoordinateReferenceSystem.cpp 189), or an object the owner created
around a fresh handle (assigned at line 199). -/
inductive GeodeticSlot where
  | null
  | self
  | owned (crs : CoordinateReferenceSystem)
/-- The class `CoordinateTransform`: the handle of its base `ProjObject`,
`m_source`, `m_target` and `m_distanceFlags`. -/
inductive CoordinateTransform where
  | mk (m_pj : Option PJ)
      (m_source : Option CoordinateReferenceSystem)
      (m_target : Option CoordinateReferenceSystem)
      (m_distanceFlags : Nat)
end

namespace CoordinateReferenceSystem

/-- The object `CoordinateReferenceSystem(ctx, pj)` as its constructor leaves
it (CoordinateReferenceSystem.h 38-41): every cache field empty. -/
def new (pj : PJ) (cls : CrsClass) (items : List CoordinateReferenceSystem) :
    CoordinateReferenceSystem :=
  .mk (some pj) cls none .null none none none none none 0 items

def m_pj : CoordinateReferenceSystem → Option PJ
  | .mk pj _ _ _ _ _ _ _ _ _ _ => pj

def cls : CoordinateReferenceSystem → CrsClass
  | .mk _ c _ _ _ _ _ _ _ _ _ => c

def m_cs : CoordinateReferenceSystem → Option ProjObject
  | .mk _ _ cs _ _ _ _ _ _ _ _ => cs

def m_geodCRS : CoordinateReferenceSystem → GeodeticSlot
  | .mk _ _ _ g _ _ _ _ _ _ _ => g

def m_ellipsoid : CoordinateReferenceSystem → Option ProjObject
  | .mk _ _ _ _ el _ _ _ _ _ _ => el

def m_datum : CoordinateReferenceSystem → Option ProjObject
  | .mk _ _ _ _ _ da _ _ _ _ _ => da

def m_primeMeridian : CoordinateReferenceSystem → Option ProjObject
  | .mk _ _ _ _ _ _ pm _ _ _ _ => pm

def m_baseCrs : CoordinateReferenceSystem → Option CoordinateReferenceSystem
  | .mk _ _ _ _ _ _ _ b _ _ _ => b

def m_distanceTransform : CoordinateReferenceSystem → Option CoordinateTransform
  | .mk _ _ _ _ _ _ _ _ dt _ _ => dt

def m_axis : CoordinateReferenceSystem → Int
  | .mk _ _ _ _ _ _ _ _ _ ax _ => ax

def items : CoordinateReferenceSystem → List CoordinateReferenceSystem
  | .mk _ _ _ _ _ _ _ _ _ _ it => it

def set_m_pj (pj : Option PJ) : CoordinateReferenceSystem → CoordinateReferenceSystem
  | .mk _ c cs g el da pm b dt ax it => .mk pj c cs g el da pm b dt ax it

def set_m_cs (cs : Option ProjObject) : CoordinateReferenceSystem → CoordinateReferenceSystem
  | .mk pj c _ g el da pm b dt ax it => .mk pj c cs g el da pm b dt ax it

def set_m_geodCRS (g : GeodeticSlot) : CoordinateReferenceSystem → CoordinateReferenceSystem
  | .mk pj c cs _ el da pm b dt ax it => .mk pj c cs g el da pm b dt ax it

def set_m_datum (da : Option ProjObject) : CoordinateReferenceSystem → CoordinateReferenceSystem
  | .mk pj c cs g el _ pm b dt ax it => .mk pj c cs g el da pm b dt ax it

def set_m_axis (ax : Int) : CoordinateReferenceSystem → CoordinateReferenceSystem
  | .mk pj c cs g el da pm b dt _ it => .mk pj c cs g el da pm b dt ax it

def set_items (it : List CoordinateReferenceSystem) :
    CoordinateReferenceSystem → CoordinateReferenceSystem
  | .mk pj c cs g el da pm b dt ax _ => .mk pj c cs g el da pm b dt ax it

end CoordinateReferenceSystem

namespace CoordinateTransform

def m_pj : CoordinateTransform → Option PJ
  | .mk pj _ _ _ => pj

def m_source : CoordinateTransform → Option CoordinateReferenceSystem
  | .mk _ s _ _ => s

def m_target : CoordinateTransform → Option CoordinateReferenceSystem
  | .mk _ _ t _ => t

def m_distanceFlags : CoordinateTransform → Nat
  | .mk _ _ _ d => d

def set_m_source (s : Option CoordinateReferenceSystem) : CoordinateTransform → CoordinateTransform
  | .mk pj _ t d => .mk pj s t d

def set_m_target (t : Option CoordinateReferenceSystem) : CoordinateTransform → CoordinateTransform
  | .mk pj s _ d => .mk pj s t d

def set_m_distanceFlags (d : Nat) : CoordinateTransform → CoordinateTransform
  | .mk pj s t _ => .mk pj s t d

end CoordinateTransform

/-! ### Conversions of a handle to an object (ProjObject.h 331-349) -/

/-- The conversion `operator bool(ProjObject^)` on a reference to a wrapper:
false for `nullptr` and for a disposed object. -/
def ProjObject.toBool : Option ProjObject → Bool
  | none => false
  | some o => o.m_pj.isSome

/-- The conversion `operator bool(ProjObject^)` on a reference to a CRS. -/
def CoordinateReferenceSystem.toBool : Option CoordinateReferenceSystem → Bool
  | none => false
  | some c => c.m_pj.isSome

/-- The conversion `operator PJ*(ProjObject^)` on a non-null reference whose
handle field is `m_pj`: the handle, or ObjectDisposedException. -/
def toPJ (m_pj : Option PJ) : Except Exn PJ :=
  match m_pj with
  | none => .error (.ObjectDisposedException "PJ disposed")
  | some h => .ok h

/-- The destructor `ProjObject::~ProjObject` (ProjObject.h 295-308) on a handle
field: the handle is destroyed if it is still there, and nulled. -/
def ProjObject.destroy (m_pj : Option PJ) (ctx : ProjContext) : Option PJ × ProjContext :=
  match m_pj with
  | some h => (none, ctx.call (.proj_destroy h))
  | none => (none, ctx)

/-- Disposal (`delete o`) of a plain wrapper: `~ProjObject`. -/
def ProjObject.Dispose (o : ProjObject) (ctx : ProjContext) : ProjObject × ProjContext :=
  ({ m_pj := (ProjObject.destroy o.m_pj ctx).1 }, (ProjObject.destroy o.m_pj ctx).2)

/-- The statement `if ((Object^)m) { delete m; m = nullptr; }` on a slot that
holds a plain wrapper: the context after it (the slot itself is empty then). -/
def deleteSlot (m : Option ProjObject) (ctx : ProjContext) : ProjContext :=
  match m with
  | some o => (o.Dispose ctx).2
  | none => ctx

/-- Disposal of a CRS: the body of
`CoordinateReferenceSystem::~CoordinateReferenceSystem`
(CoordinateReferenceSystem.cpp 17-46) followed by `~ProjObject`.  The
destructor of `CoordinateReferenceSystemList` is not under src; `items` are
left as they are. -/
def CoordinateReferenceSystem.Dispose :
    CoordinateReferenceSystem → ProjContext → CoordinateReferenceSystem × ProjContext
  | .mk pj c cs g el da pm b dt ax it, ctx =>
    -- if ((Object^)m_cs) { delete m_cs; m_cs = nullptr; }
    let ctx := deleteSlot cs ctx
    -- if ((Object^)m_geodCRS) { if (!ReferenceEquals(m_geodCRS, this)) delete m_geodCRS; ... }
    let ctx := match g with
      | .null => ctx
      | .self => ctx
      | .owned crs => (crs.Dispose ctx).2
    let ctx := deleteSlot el ctx
    let ctx := deleteSlot pm ctx
    let ctx := match b with
      | none => ctx
      | some crs => (crs.Dispose ctx).2
    -- ~ProjObject
    ((.mk (ProjObject.destroy pj ctx).1 c none .null none da none none dt ax it),
      (ProjObject.destroy pj ctx).2)

/-- Disposal of a transform: `CoordinateTransform::~CoordinateTransform`
(CoordinateTransform.cpp 12-24) followed by `~ProjObject`. -/
def CoordinateTransform.Dispose :
    CoordinateTransform → ProjContext → CoordinateTransform × ProjContext
  | .mk pj s t d, ctx =>
    let ctx := match s with
      | none => ctx
      | some crs => (crs.Dispose ctx).2
    let ctx := match t with
      | none => ctx
      | some crs => (crs.Dispose ctx).2
    (.mk (ProjObject.destroy pj ctx).1 none none d, (ProjObject.destroy pj ctx).2)

/-! ## CoordinateReferenceSystem: derived properties -/

/-- The property `ProjObject::Type` (ProjObject.h 445-451) of an object whose
handle field is `m_pj`: `proj_get_type(this)`, the conversion of `this` to
`PJ*` throwing on a disposed object. -/
def ProjObject.Type (E : Engine) (m_pj : Option PJ) (ctx : ProjContext) :
    Except Exn ProjType × ProjContext :=
  match m_pj with
  | none => (.error (.ObjectDisposedException "PJ disposed"), ctx)
  | some h => (.ok (E.proj_get_type h), ctx.call (.proj_get_type h))

namespace CoordinateReferenceSystem

/-- The getter `CoordinateReferenceSystem::CoordinateSystem::get`
(CoordinateReferenceSystem.cpp 228-247).  `Context->Create<CoordinateSystem^>(pj)`
is the wrapper around `pj`. -/
def CoordinateSystem (E : Engine) (self : CoordinateReferenceSystem) (ctx : ProjContext) :
    Except Exn (Option ProjObject) × CoordinateReferenceSystem × ProjContext :=
  if ProjObject.toBool self.m_cs then
    (.ok self.m_cs, self, ctx)
  else
    match ProjObject.Type E self.m_pj ctx, self.m_pj with
    | (.error e, ctx), _ => (.error e, self, ctx)
    | (.ok _, ctx), none => (.error (.ObjectDisposedException "PJ disposed"), self, ctx)
    | (.ok t, ctx), some h =>
      if t ≠ .CompoundCrs then
        let ctx := (ctx.ClearError).call (.proj_crs_get_coordinate_system h)
        match E.proj_crs_get_coordinate_system h with
        | none => (.ok none, self, ctx.ClearError)
        | some pj => (.ok (some { m_pj := some pj }), self.set_m_cs (some { m_pj := some pj }), ctx)
      else
        (.ok self.m_cs, self, ctx)

/-- The getter `CoordinateReferenceSystem::AxisCount::get`
(CoordinateReferenceSystem.cpp 320-334), the implementation of the base
class. -/
def AxisCount_base (E : Engine) (self : CoordinateReferenceSystem) (ctx : ProjContext) :
    Except Exn Int × CoordinateReferenceSystem × ProjContext :=
  -- if (!m_axis && this && Type != ProjType::CompoundCrs)
  if self.m_axis ≠ 0 then
    (.ok self.m_axis, self, ctx)
  else if self.m_pj.isNone then
    (.ok self.m_axis, self, ctx)
  else
    match ProjObject.Type E self.m_pj ctx with
    | (.error e, ctx) => (.error e, self, ctx)
    | (.ok t, ctx) =>
      if t = .CompoundCrs then
        (.ok self.m_axis, self, ctx)
      else
        match CoordinateSystem E self ctx with
        | (.error e, self, ctx) => (.error e, self, ctx)
        | (.ok cs, self, ctx) =>
          -- if (cs) m_axis = proj_cs_get_axis_count(cs->Context, cs);
          let r : CoordinateReferenceSystem × ProjContext :=
            match cs with
            | some { m_pj := some pj } =>
              (self.set_m_axis (E.proj_cs_get_axis_count pj), ctx.call (.proj_cs_get_axis_count pj))
            | _ => (self, ctx)
          -- if (!m_axis) m_axis = -1;
          let self := if r.1.m_axis = 0 then r.1.set_m_axis (-1) else r.1
          (.ok self.m_axis, self, r.2)

/-- The virtual property `AxisCount` read through a reference: for a
`CoordinateReferenceSystemList` the override
`CoordinateReferenceSystemList::AxisCount::get`
(CoordinateReferenceSystemList.cpp 8-19), which reads `__super::AxisCount` and,
when that is zero, stores and returns `this[0]->AxisCount + this[1]->AxisCount`;
for every other class the base getter.  An index past the end of the list
throws. -/
def AxisCount (E : Engine) :
    CoordinateReferenceSystem → ProjContext →
      Except Exn Int × CoordinateReferenceSystem × ProjContext
  | .mk pj c cs g el da pm b dt ax it, ctx =>
    match c with
    | .list =>
      -- int n = __super::AxisCount;
      match AxisCount_base E (.mk pj c cs g el da pm b dt ax it) ctx with
      | (.error e, self, ctx) => (.error e, self, ctx)
      | (.ok n, self, ctx) =>
        if n ≠ 0 then
          (.ok n, self, ctx)
        else
          match it with
          | i0 :: i1 :: rest =>
            match AxisCount E i0 ctx with
            | (.error e, i0, ctx) => (.error e, self.set_items (i0 :: i1 :: rest), ctx)
            | (.ok n0, i0, ctx) =>
              match AxisCount E i1 ctx with
              | (.error e, i1, ctx) => (.error e, self.set_items (i0 :: i1 :: rest), ctx)
              | (.ok n1, i1, ctx) =>
                -- __super::AxisCount = n = this[0]->AxisCount + this[1]->AxisCount;
                (.ok (n0 + n1), (self.set_items (i0 :: i1 :: rest)).set_m_axis (n0 + n1), ctx)
          | i0 :: [] =>
            match AxisCount E i0 ctx with
            | (.error e, i0, ctx) => (.error e, self.set_items [i0], ctx)
            | (.ok _, i0, ctx) => (.error .ArgumentOutOfRangeException, self.set_items [i0], ctx)
          | [] => (.error .ArgumentOutOfRangeException, self, ctx)
    | _ => AxisCount_base E (.mk pj c cs g el da pm b dt ax it) ctx

/-- The conversion `operator bool` on the reference held in `m_geodCRS`. -/
def geodToBool (self : CoordinateReferenceSystem) : Bool :=
  match self.m_geodCRS with
  | .null => false
  | .self => self.m_pj.isSome
  | .owned crs => crs.m_pj.isSome

/-- The getter `CoordinateReferenceSystem::GeodeticCRS::get`
(CoordinateReferenceSystem.cpp 182-203).  `create pj` is
`Context->Create<Proj::GeodeticCRS^>(pj)` (ProjContext.h, not under src). -/
def GeodeticCRS (E : Engine) (create : PJ → CoordinateReferenceSystem)
    (self : CoordinateReferenceSystem) (ctx : ProjContext) :
    Except Exn GeodeticSlot × CoordinateReferenceSystem × ProjContext :=
  -- if (!m_geodCRS && this)
  if self.geodToBool then
    (.ok self.m_geodCRS, self, ctx)
  else
    match self.m_pj with
    | none => (.ok self.m_geodCRS, self, ctx)
    | some h =>
      -- Proj::GeodeticCRS^ geoCrs = dynamic_cast<Proj::GeodeticCRS^>(this);
      if self.cls = .geodetic then
        (.ok .self, self.set_m_geodCRS .self, ctx)
      else
        let ctx := (ctx.ClearError).call (.proj_crs_get_geodetic_crs h)
        match E.proj_crs_get_geodetic_crs h with
        | none => (.error (ctx.ConstructException E).1, self, (ctx.ConstructException E).2)
        | some pj => (.ok (.owned (create pj)), self.set_m_geodCRS (.owned (create pj)), ctx)

/-- The getter `CoordinateReferenceSystem::Datum::get`
(CoordinateReferenceSystem.cpp 205-225).  `Context->Create<Proj::Datum^>(pj)` is
the wrapper around `pj`. -/
def Datum (E : Engine) (self : CoordinateReferenceSystem) (ctx : ProjContext) :
    Except Exn (Option ProjObject) × CoordinateReferenceSystem × ProjContext :=
  -- if (!m_datum && this)
  if ProjObject.toBool self.m_datum then
    (.ok self.m_datum, self, ctx)
  else
    match self.m_pj with
    | none => (.ok self.m_datum, self, ctx)
    | some h =>
      let ctx := (ctx.ClearError).call (.proj_crs_get_datum h)
      match E.proj_crs_get_datum h with
      | some pj => (.ok (some { m_pj := some pj }), self.set_m_datum (some { m_pj := some pj }), ctx)
      | none =>
        let ctx := ctx.call (.proj_crs_get_datum_ensemble h)
        match E.proj_crs_get_datum_ensemble h with
        | some pj =>
          (.ok (some { m_pj := some pj }), self.set_m_datum (some { m_pj := some pj }), ctx)
        | none => (.ok none, self, ctx.ClearError)

end CoordinateReferenceSystem

/-! ## CoordinateTransform: execution -/

/-- The members of the value class `PPoint` (PPoint.h, not under src) that the
code under src uses, for a type `P` of points: the properties `X`, `Y`, `Z`,
`T`, the constructor `PPoint(int axis, const double* v)` and the constructor
`PPoint(const PJ_COORD&)`. -/
structure PPointOps (P : Type) where
  X : P → Double
  Y : P → Double
  Z : P → Double
  T : P → Double
  ofAxis : Int → PJ_COORD → P
  ofCoord : PJ_COORD → P

/-- The helper `ProjObject::SetCoordinate` (ProjObject.h 552-558). -/
def SetCoordinate {P : Type} (M : PPointOps P) (coordinate : P) : PJ_COORD :=
  { v0 := M.X coordinate, v1 := M.Y coordinate, v2 := M.Z coordinate, v3 := M.T coordinate }

namespace CoordinateTransform

/-- The getter `CoordinateTransform::SourceCRS::get` (CoordinateTransform.cpp
175-188).  `create pj` is `Context->Create<CoordinateReferenceSystem^>(pj)`. -/
def SourceCRS (E : Engine) (create : PJ → CoordinateReferenceSystem)
    (self : CoordinateTransform) (ctx : ProjContext) :
    Except Exn (Option CoordinateReferenceSystem) × CoordinateTransform × ProjContext :=
  if CoordinateReferenceSystem.toBool self.m_source then
    (.ok self.m_source, self, ctx)
  else
    match toPJ self.m_pj with
    | .error e => (.error e, self, ctx)
    | .ok h =>
      match E.proj_get_source_crs h with
      | none => (.ok none, self, ctx.call (.proj_get_source_crs h))
      | some pj =>
        (.ok (some (create pj)), self.set_m_source (some (create pj)),
          ctx.call (.proj_get_source_crs h))

/-- The getter `CoordinateTransform::TargetCRS::get` (CoordinateTransform.cpp
191-204). -/
def TargetCRS (E : Engine) (create : PJ → CoordinateReferenceSystem)
    (self : CoordinateTransform) (ctx : ProjContext) :
    Except Exn (Option CoordinateReferenceSystem) × CoordinateTransform × ProjContext :=
  if CoordinateReferenceSystem.toBool self.m_target then
    (.ok self.m_target, self, ctx)
  else
    match toPJ self.m_pj with
    | .error e => (.error e, self, ctx)
    | .ok h =>
      match E.proj_get_target_crs h with
      | none => (.ok none, self, ctx.call (.proj_get_target_crs h))
      | some pj =>
        (.ok (some (create pj)), self.set_m_target (some (create pj)),
          ctx.call (.proj_get_target_crs h))

/-- The first statement of `CoordinateTransform::FromCoordinate`
(CoordinateTransform.cpp 169): `crs = forward ? TargetCRS : SourceCRS`. -/
def FromCoordinate_crs (E : Engine) (create : PJ → CoordinateReferenceSystem)
    (self : CoordinateTransform) (forward : Bool) (ctx : ProjContext) :
    Except Exn (Option CoordinateReferenceSystem) × CoordinateTransform × ProjContext :=
  if forward then TargetCRS E create self ctx else SourceCRS E create self ctx

/-- The number `axis` that `CoordinateTransform::FromCoordinate`
(CoordinateTransform.cpp 165-173) computes: `crs ? crs->AxisCount : 4` for
`crs = forward ? TargetCRS : SourceCRS`.  The object that `crs` refers to is the
one cached in `m_target` (`m_source`), so what `AxisCount` memoizes in it is
written back there. -/
def FromCoordinate_axis (E : Engine) (create : PJ → CoordinateReferenceSystem)
    (self : CoordinateTransform) (forward : Bool) (ctx : ProjContext) :
    Except Exn Int × CoordinateTransform × ProjContext :=
  match FromCoordinate_crs E create self forward ctx with
  | (.error e, self, ctx) => (.error e, self, ctx)
  | (.ok none, self, ctx) => (.ok 4, self, ctx)
  | (.ok (some crs), self, ctx) =>
    if crs.m_pj.isSome then
      match crs.AxisCount E ctx with
      | (r, crs, ctx) =>
        (r, (if forward then self.set_m_target (some crs) else self.set_m_source (some crs)), ctx)
    else
      (.ok 4, self, ctx)

/-- The method `CoordinateTransform::FromCoordinate` (CoordinateTransform.cpp
165-173): `PPoint(axis, &coord.v[0])`. -/
def FromCoordinate {P : Type} (M : PPointOps P) (E : Engine)
    (create : PJ → CoordinateReferenceSystem)
    (self : CoordinateTransform) (coord : PJ_COORD) (forward : Bool) (ctx : ProjContext) :
    Except Exn P × CoordinateTransform × ProjContext :=
  match FromCoordinate_axis E create self forward ctx with
  | (.error e, self, ctx) => (.error e, self, ctx)
  | (.ok axis, self, ctx) => (.ok (M.ofAxis axis coord), self, ctx)

/-- The method `CoordinateTransform::DoTransform` (CoordinateTransform.cpp
152-163). -/
def DoTransform {P : Type} (M : PPointOps P) (E : Engine)
    (create : PJ → CoordinateReferenceSystem)
    (self : CoordinateTransform) (forward : Bool) (coordinate : P) (ctx : ProjContext) :
    Except Exn P × CoordinateTransform × ProjContext :=
  match toPJ self.m_pj with
  | .error e => (.error e, self, ctx)
  | .ok h =>
    -- coord = proj_trans(this, forward ? PJ_FWD : PJ_INV, coord);
    let coord := E.proj_trans h forward (SetCoordinate M coordinate)
    let ctx := ctx.call (.proj_trans h)
    if coord.v0.IsNaN then
      (.error (ctx.ConstructException E).1, self, (ctx.ConstructException E).2)
    else
      FromCoordinate M E create self coord forward ctx

end CoordinateTransform

/-! ## CoordinateTransform: distances -/

/-- The enum `DistanceFlags` (CoordinateTransform.cpp 241-248). -/
def DistanceFlags.None : Nat := 0

def DistanceFlags.Setup : Nat := 1

def DistanceFlags.ApplyTransform : Nat := 2

def DistanceFlags.SwapXY : Nat := 4

def DistanceFlags.ApplyRad : Nat := 8

/-- An axis of a coordinate system (Axis.h, not under src), as far as
`SetupDistance` reads it. -/
structure Axis where
  Abbreviation : String
deriving DecidableEq, Repr

/-- The exchange `std::swap(coord.xy.x, coord.xy.y)`. -/
def PJ_COORD.swapXY (c : PJ_COORD) : PJ_COORD :=
  { c with v0 := c.v1, v1 := c.v0 }

namespace CoordinateTransform

/-- The method `CoordinateTransform::SetupDistance` (CoordinateTransform.cpp
250-269).  `targetAxis` is the outcome of evaluating `this->TargetCRS->Axis`:
an exception (such as the NullReferenceException of an absent target CRS), or
the axis collection, `none` for `nullptr`. -/
def SetupDistance (targetAxis : Except Exn (Option (List Axis))) (self : CoordinateTransform) :
    Except Exn Unit × CoordinateTransform :=
  let d := DistanceFlags.Setup
  let d := d ||| DistanceFlags.ApplyTransform
  match targetAxis with
  | .error e => (.error e, self)
  | .ok axis =>
    let d :=
      match axis with
      | some (a :: _) =>
        if a.Abbreviation = "Lat" then
          d ||| (DistanceFlags.SwapXY ||| DistanceFlags.ApplyRad)
        else if a.Abbreviation = "Lon" then
          d ||| DistanceFlags.ApplyRad
        else d
      | _ => d
    (.ok (), self.set_m_distanceFlags d)

/-- The first step of `GeoDistance`, `GeoDistanceZ` and `Geod`: both points go
through `Apply` when the flag ApplyTransform is set.  `Apply` is declared in
CoordinateTransform.h, not under src, and may throw. -/
def preApply {P : Type} (Apply : P → Except Exn P) (flags : Nat) (p1 p2 : P) :
    Except Exn (P × P) :=
  if flags &&& DistanceFlags.ApplyTransform ≠ 0 then
    match Apply p1 with
    | .error e => .error e
    | .ok q1 =>
      match Apply p2 with
      | .error e => .error e
      | .ok q2 => .ok (q1, q2)
  else .ok (p1, p2)

/-- The coordinate that `GeoDistance` builds from one pre-applied point
(CoordinateTransform.cpp 281-302). -/
def GeoDistance_coord {P : Type} (M : PPointOps P) (ToRad : Double → Double) (flags : Nat)
    (p : P) : PJ_COORD :=
  let c : PJ_COORD :=
    if flags &&& DistanceFlags.ApplyRad ≠ 0 then
      { PJ_COORD.zero with v0 := ToRad (M.X p), v1 := ToRad (M.Y p) }
    else
      { PJ_COORD.zero with v0 := M.X p, v1 := M.Y p }
  if flags &&& DistanceFlags.SwapXY ≠ 0 then c.swapXY else c

/-- The coordinate that `GeoDistanceZ` builds from one pre-applied point
(CoordinateTransform.cpp 317-342). -/
def GeoDistanceZ_coord {P : Type} (M : PPointOps P) (ToRad : Double → Double) (flags : Nat)
    (p : P) : PJ_COORD :=
  let c : PJ_COORD :=
    if flags &&& DistanceFlags.ApplyRad ≠ 0 then
      { PJ_COORD.zero with v0 := ToRad (M.X p), v1 := ToRad (M.Y p), v2 := M.Z p }
    else
      { PJ_COORD.zero with v0 := M.X p, v1 := M.Y p, v2 := M.Z p }
  if flags &&& DistanceFlags.SwapXY ≠ 0 then c.swapXY else c

/-- The coordinate that `Geod` builds from one pre-applied point
(CoordinateTransform.cpp 358-370). -/
def Geod_coord {P : Type} (M : PPointOps P) (ToRad : Double → Double) (flags : Nat)
    (p : P) : PJ_COORD :=
  let c : PJ_COORD :=
    { PJ_COORD.zero with v0 := ToRad (M.X p), v1 := ToRad (M.Y p), v2 := M.Z p }
  if flags &&& DistanceFlags.SwapXY ≠ 0 then c.swapXY else c

/-- The method `CoordinateTransform::GeoDistance` (CoordinateTransform.cpp
271-305), after `EnsureDistance()` (CoordinateTransform.h, not under src) has
left the descriptor in `m_distanceFlags`.  `ToRad` is declared outside src. -/
def GeoDistance {P : Type} (M : PPointOps P) (E : Engine) (Apply : P → Except Exn P)
    (ToRad : Double → Double) (self : CoordinateTransform) (p1 p2 : P) : Except Exn Double :=
  match preApply Apply self.m_distanceFlags p1 p2 with
  | .error e => .error e
  | .ok (q1, q2) =>
    match toPJ self.m_pj with
    | .error e => .error e
    | .ok h =>
      .ok (E.proj_lp_dist h (GeoDistance_coord M ToRad self.m_distanceFlags q1)
        (GeoDistance_coord M ToRad self.m_distanceFlags q2))

/-- The method `CoordinateTransform::GeoDistanceZ` (CoordinateTransform.cpp
307-345), after `EnsureDistance()`. -/
def GeoDistanceZ {P : Type} (M : PPointOps P) (E : Engine) (Apply : P → Except Exn P)
    (ToRad : Double → Double) (self : CoordinateTransform) (p1 p2 : P) : Except Exn Double :=
  match preApply Apply self.m_distanceFlags p1 p2 with
  | .error e => .error e
  | .ok (q1, q2) =>
    match toPJ self.m_pj with
    | .error e => .error e
    | .ok h =>
      .ok (E.proj_lpz_dist h (GeoDistanceZ_coord M ToRad self.m_distanceFlags q1)
        (GeoDistanceZ_coord M ToRad self.m_distanceFlags q2))

/-- The method `CoordinateTransform::Geod` (CoordinateTransform.cpp 348-375),
after `EnsureDistance()`. -/
def Geod {P : Type} (M : PPointOps P) (E : Engine) (Apply : P → Except Exn P)
    (ToRad : Double → Double) (self : CoordinateTransform) (p1 p2 : P) : Except Exn P :=
  match preApply Apply self.m_distanceFlags p1 p2 with
  | .error e => .error e
  | .ok (q1, q2) =>
    match toPJ self.m_pj with
    | .error e => .error e
    | .ok h =>
      .ok (M.ofCoord (E.proj_geod h (Geod_coord M ToRad self.m_distanceFlags q1)
        (Geod_coord M ToRad self.m_distanceFlags q2)))

end CoordinateTransform

/-! ## Operation resolution: `Create` -/

/-- Modelled from the spec: the enum `IntermediateCrsUsage` is declared in a
header that is not under src.  `Create` names its members `Auto` and `Never`;
section 4.3 lists the policy as one of Auto, Never and Always. -/
inductive IntermediateCrsUsage where
  | Auto | Never | Always
deriving DecidableEq, Repr

/-- The class `CoordinateArea` (CoordinateArea.h, not under src), as far as
`Create` reads it. -/
structure CoordinateArea where
  WestLongitude : Double
  SouthLatitude : Double
  EastLongitude : Double
  NorthLatitude : Double
deriving DecidableEq, Repr

/-- The class `CoordinateTransformOptions` (its header is not under src): the
properties that `Create` reads. -/
structure CoordinateTransformOptions where
  Authority : Option String
  Area : Option CoordinateArea
  NoBallparkConversions : Bool
  Accuracy : Option Double
  NoDiscardIfMissing : Bool
  UsePrimaryGridNames : Bool
  IntermediateCrsUsage : IntermediateCrsUsage
  UseSuperseded : Bool
deriving DecidableEq, Repr

/-- Modelled from the spec: the value of `gcnew CoordinateTransformOptions()`,
whose constructor is not under src.  It is the constraint set of section 4.3
with nothing supplied: no authority, no area of interest, no desired accuracy,
`allowBallpark`, `preferPrimaryGridNames` and `discardSuperseded` true,
`noDiscardIfGridMissing` false, and the policy `Auto`. -/
def CoordinateTransformOptions.default : CoordinateTransformOptions :=
  { Authority := none, Area := none, NoBallparkConversions := false, Accuracy := none,
    NoDiscardIfMissing := false, UsePrimaryGridNames := true,
    IntermediateCrsUsage := .Auto, UseSuperseded := false }

/-- The operation-factory context that `Create` configures
(CoordinateTransform.cpp 47-101, CoordinateOperation.cpp 31-85, the same text
in both files). -/
def operationFactoryContext (E : Engine) (options : CoordinateTransformOptions) :
    OperationFactoryContext :=
  { authority :=
      match options.Authority with
      | none => none
      | some a => if a = "" then none else some a
    allow_ballpark_transformations := !options.NoBallparkConversions
    desired_accuracy := options.Accuracy
    area_of_interest :=
      match options.Area with
      | some a => some (a.WestLongitude, a.SouthLatitude, a.EastLongitude, a.NorthLatitude)
      | none => none
    spatial_criterion :=
      match options.Area with
      | some _ => none
      | none => some .PARTIAL_INTERSECTION
    grid_availability_use :=
      if E.proj_context_is_network_enabled then .KNOWN_AVAILABLE
      else if options.NoDiscardIfMissing then .USED_FOR_SORTING
      else .DISCARD_OPERATION_IF_MISSING_GRID
    use_proj_alternative_grid_names := !options.UsePrimaryGridNames
    allow_use_intermediate_crs :=
      if options.IntermediateCrsUsage = .Auto then .IF_NO_DIRECT_TRANSFORMATION
      else if options.IntermediateCrsUsage = .Never then .NEVER
      else .IF_NO_DIRECT_TRANSFORMATION
    discard_superseded := !options.UseSuperseded }

/-- What `Create` returns: `nullptr`; the single operation `ctx->Create(P)`
wrapping one handle; or the deferred choice
`gcnew ChooseCoordinateTransform(ctx, P, op_list)`
(`gcnew CoordinateOperationList(ctx, P, op_list)` in the older wrapper), which
keeps the whole candidate list. -/
inductive CreateResult where
  | nullptr
  | single (P : Option PJ)
  | choose (P : Option PJ) (op_list : PJ_OBJ_LIST)
deriving DecidableEq, Repr

/-- The part of `Create` that both wrappers share word for word
(CoordinateTransform.cpp 36-117, CoordinateOperation.cpp 20-101): argument
checks, the factory context, the candidate list, the empty-list failure, and
`proj_list_get(ctx, op_list, 0)`.  It ends with an exception, with the early
`return nullptr` (`ok none`), or with the handles of both CRSs, the list and its
first entry `P`.  The tests `!sourceCrs` and `!targetCrs` go through
`operator bool`, so a disposed CRS counts as absent. -/
def Create_candidates (E : Engine) (sourceCrs targetCrs : Option CoordinateReferenceSystem)
    (options : Option CoordinateTransformOptions) (ctx : ProjContext) :
    Except Exn (Option (PJ × PJ × CoordinateTransformOptions × PJ_OBJ_LIST × Option PJ)) ×
      ProjContext :=
  if !CoordinateReferenceSystem.toBool sourceCrs then
    (.error (.ArgumentNullException "sourceCrs"), ctx)
  else if !CoordinateReferenceSystem.toBool targetCrs then
    (.error (.ArgumentNullException "targetCrs"), ctx)
  else
    -- if (!options) options = gcnew CoordinateTransformOptions();
    let options := options.getD CoordinateTransformOptions.default
    let operation_ctx := operationFactoryContext E options
    let ctx := ctx.call .proj_create_operation_factory_context
    if !E.proj_create_operation_factory_context operation_ctx.authority then
      (.ok none, ctx)
    else
      -- proj_create_operations(ctx, sourceCrs, targetCrs, operation_ctx): operator PJ*
      match sourceCrs.bind CoordinateReferenceSystem.m_pj,
          targetCrs.bind CoordinateReferenceSystem.m_pj with
      | some s, some t =>
        let ctx := (ctx.call (.proj_create_operations s t)).call
          .proj_operation_factory_context_destroy
        match E.proj_create_operations s t operation_ctx with
        | none => (.ok none, ctx)
        | some op_list =>
          let ctx := ctx.call .proj_list_get_count
          if op_list.length = 0 then
            (.error (.ProjException (some "No operation found matching criteria") none),
              ctx.call .proj_list_destroy)
          else
            (.ok (some (s, t, options, op_list, (op_list.head?).join)),
              ctx.call (.proj_list_get 0))
      | _, _ => (.error (.ObjectDisposedException "PJ disposed"), ctx)

/-- The test of CoordinateTransform.cpp 119-121 (CoordinateOperation.cpp
103-105), with the short-circuit evaluation of `||`: the `Type` of a CRS is
asked for only when everything before it is false. -/
def Create_commits (E : Engine) (s t : PJ) (options : CoordinateTransformOptions)
    (op_list : PJ_OBJ_LIST) (P : Option PJ) (ctx : ProjContext) : Bool × ProjContext :=
  if P.isNone || op_list.length = 1 || options.Area.isSome then
    (true, ctx)
  else if E.proj_get_type s = .GeocentricCrs then
    (true, ctx.call (.proj_get_type s))
  else
    (E.proj_get_type t = .GeocentricCrs, (ctx.call (.proj_get_type s)).call (.proj_get_type t))

/-- The method `CoordinateTransform::Create(sourceCrs, targetCrs, options, ctx)`
(CoordinateTransform.cpp 34-132). -/
def CoordinateTransform.Create (E : Engine)
    (sourceCrs targetCrs : Option CoordinateReferenceSystem)
    (options : Option CoordinateTransformOptions) (ctx : ProjContext) :
    Except Exn CreateResult × ProjContext :=
  match Create_candidates E sourceCrs targetCrs options ctx with
  | (.error e, ctx) => (.error e, ctx)
  | (.ok none, ctx) => (.ok .nullptr, ctx)
  | (.ok (some (s, t, options, op_list, P)), ctx) =>
    let test := Create_commits E s t options op_list P ctx
    if test.1 then
      -- proj_list_destroy(op_list);
      let ctx := test.2.call .proj_list_destroy
      match P with
      | none => (.error (ctx.ConstructException E).1, (ctx.ConstructException E).2)
      | some p => (.ok (.single (some p)), ctx)
    else
      (.ok (.choose P op_list), test.2)

/-- The method `CoordinateOperation::Create(sourceCrs, targetCrs, options, ctx)`
of the older wrapper (ProjSharp/CoordinateOperation.cpp 18-112): on commitment
it returns `ctx->Create(P)` whatever `P` is. -/
def CoordinateOperation.Create (E : Engine)
    (sourceCrs targetCrs : Option CoordinateReferenceSystem)
    (options : Option CoordinateTransformOptions) (ctx : ProjContext) :
    Except Exn CreateResult × ProjContext :=
  match Create_candidates E sourceCrs targetCrs options ctx with
  | (.error e, ctx) => (.error e, ctx)
  | (.ok none, ctx) => (.ok .nullptr, ctx)
  | (.ok (some (s, t, options, op_list, P)), ctx) =>
    let test := Create_commits E s t options op_list P ctx
    if test.1 then
      (.ok (.single P), test.2.call .proj_list_destroy)
    else
      (.ok (.choose P op_list), test.2)

/-! ## CoordinateReferenceSystem: the other derived properties -/

namespace CoordinateReferenceSystem

def set_m_ellipsoid (el : Option ProjObject) :
    CoordinateReferenceSystem → CoordinateReferenceSystem
  | .mk pj c cs g _ da pm b dt ax it => .mk pj c cs g el da pm b dt ax it

def set_m_primeMeridian (pm : Option ProjObject) :
    CoordinateReferenceSystem → CoordinateReferenceSystem
  | .mk pj c cs g el da _ b dt ax it => .mk pj c cs g el da pm b dt ax it

def set_m_baseCrs (b : Option CoordinateReferenceSystem) :
    CoordinateReferenceSystem → CoordinateReferenceSystem
  | .mk pj c cs g el da pm _ dt ax it => .mk pj c cs g el da pm b dt ax it

def set_m_distanceTransform (dt : Option CoordinateTransform) :
    CoordinateReferenceSystem → CoordinateReferenceSystem
  | .mk pj c cs g el da pm b _ ax it => .mk pj c cs g el da pm b dt ax it

/-- The getter `CoordinateReferenceSystem::Ellipsoid::get`
(CoordinateReferenceSystem.cpp 262-275).  `Context->Create<Proj::Ellipsoid^>(pj)`
is the wrapper around `pj`. -/
def Ellipsoid (E : Engine) (self : CoordinateReferenceSystem) (ctx : ProjContext) :
    Except Exn (Option ProjObject) × CoordinateReferenceSystem × ProjContext :=
  -- if (!m_ellipsoid && this)
  if ProjObject.toBool self.m_ellipsoid then
    (.ok self.m_ellipsoid, self, ctx)
  else
    match self.m_pj with
    | none => (.ok self.m_ellipsoid, self, ctx)
    | some h =>
      let ctx := (ctx.ClearError).call (.proj_get_ellipsoid h)
      match E.proj_get_ellipsoid h with
      | none => (.error (ctx.ConstructException E).1, self, (ctx.ConstructException E).2)
      | some pj =>
        (.ok (some { m_pj := some pj }), self.set_m_ellipsoid (some { m_pj := some pj }), ctx)

/-- The getter `CoordinateReferenceSystem::PrimeMeridian::get`
(CoordinateReferenceSystem.cpp 277-291). -/
def PrimeMeridian (E : Engine) (self : CoordinateReferenceSystem) (ctx : ProjContext) :
    Except Exn (Option ProjObject) × CoordinateReferenceSystem × ProjContext :=
  -- if (!m_primeMeridian && this)
  if ProjObject.toBool self.m_primeMeridian then
    (.ok self.m_primeMeridian, self, ctx)
  else
    match self.m_pj with
    | none => (.ok self.m_primeMeridian, self, ctx)
    | some h =>
      let ctx := (ctx.ClearError).call (.proj_get_prime_meridian h)
      match E.proj_get_prime_meridian h with
      | none => (.error (ctx.ConstructException E).1, self, (ctx.ConstructException E).2)
      | some pj =>
        (.ok (some { m_pj := some pj }), self.set_m_primeMeridian (some { m_pj := some pj }),
          ctx)

/-- The getter `CoordinateReferenceSystem::BaseCRS::get`
(CoordinateReferenceSystem.cpp 293-308).  `create pj` is
`Context->Create<CoordinateReferenceSystem^>(pj)`. -/
def BaseCRS (E : Engine) (create : PJ → CoordinateReferenceSystem)
    (self : CoordinateReferenceSystem) (ctx : ProjContext) :
    Except Exn (Option CoordinateReferenceSystem) × CoordinateReferenceSystem × ProjContext :=
  -- if (!m_baseCrs && this)
  if CoordinateReferenceSystem.toBool self.m_baseCrs then
    (.ok self.m_baseCrs, self, ctx)
  else
    match self.m_pj with
    | none => (.ok self.m_baseCrs, self, ctx)
    | some h =>
      let ctx := (ctx.ClearError).call (.proj_get_source_crs h)
      match E.proj_get_source_crs h with
      | none => (.ok none, self, ctx.ClearError)
      | some pj => (.ok (some (create pj)), self.set_m_baseCrs (some (create pj)), ctx)

/-- The method `CoordinateReferenceSystem::WithAxisNormalized`
(CoordinateReferenceSystem.cpp 249-260). -/
def WithAxisNormalized (E : Engine) (create : PJ → CoordinateReferenceSystem)
    (self : CoordinateReferenceSystem) (ctx : ProjContext) :
    Except Exn CoordinateReferenceSystem × ProjContext :=
  match toPJ self.m_pj with
  | .error e => (.error e, ctx)
  | .ok h =>
    let ctx := ctx.call (.proj_normalize_for_visualization h)
    match E.proj_normalize_for_visualization h with
    | none => (.error (ctx.ConstructException E).1, (ctx.ConstructException E).2)
    | some pj => (.ok (create pj), ctx)

/-- The conversion `operator bool` on a reference to a transform. -/
def transformToBool : Option CoordinateTransform → Bool
  | none => false
  | some t => t.m_pj.isSome

/-- The conversion `operator bool` on a reference that the property
`GeodeticCRS` of `self` returned. -/
def slotToBool (self : CoordinateReferenceSystem) : GeodeticSlot → Bool
  | .null => false
  | .self => self.m_pj.isSome
  | .owned crs => crs.m_pj.isSome

/-- Lines 314-315 of CoordinateReferenceSystem.cpp once the target is known:
`m_distanceTransform = CoordinateTransform::Create(this, target, Context);`
then `m_distanceTransform->EnsureDistance();`.  The overload `Create3` of
`Create` with three arguments and `EnsureDistance` are declared in
CoordinateTransform.h, not under src. -/
def DistanceTransform_build
    (Create3 : CoordinateReferenceSystem → CoordinateReferenceSystem → ProjContext →
      Except Exn (Option CoordinateTransform) × ProjContext)
    (EnsureDistance : CoordinateTransform → ProjContext →
      Except Exn CoordinateTransform × ProjContext)
    (self target : CoordinateReferenceSystem) (ctx : ProjContext) :
    Except Exn (Option CoordinateTransform) × CoordinateReferenceSystem × ProjContext :=
  match Create3 self target ctx with
  | (.error e, ctx) => (.error e, self, ctx)
  | (.ok none, ctx) => (.error .NullReferenceException, self.set_m_distanceTransform none, ctx)
  | (.ok (some t), ctx) =>
    match EnsureDistance t ctx with
    | (.error e, ctx) => (.error e, self.set_m_distanceTransform (some t), ctx)
    | (.ok t, ctx) => (.ok (some t), self.set_m_distanceTransform (some t), ctx)

/-- The getter `CoordinateReferenceSystem::DistanceTransform::get`
(CoordinateReferenceSystem.cpp 310-318).  The test reads the property
`GeodeticCRS`; line 314 reads it again and normalizes its axes. -/
def DistanceTransform (E : Engine) (create : PJ → CoordinateReferenceSystem)
    (Create3 : CoordinateReferenceSystem → CoordinateReferenceSystem → ProjContext →
      Except Exn (Option CoordinateTransform) × ProjContext)
    (EnsureDistance : CoordinateTransform → ProjContext →
      Except Exn CoordinateTransform × ProjContext)
    (self : CoordinateReferenceSystem) (ctx : ProjContext) :
    Except Exn (Option CoordinateTransform) × CoordinateReferenceSystem × ProjContext :=
  -- if (!m_distanceTransform && this && this->GeodeticCRS)
  if transformToBool self.m_distanceTransform then
    (.ok self.m_distanceTransform, self, ctx)
  else if self.m_pj.isNone then
    (.ok self.m_distanceTransform, self, ctx)
  else
    match self.GeodeticCRS E create ctx with
    | (.error e, self, ctx) => (.error e, self, ctx)
    | (.ok g, self, ctx) =>
      if self.slotToBool g then
        -- this->GeodeticCRS->WithAxisNormalized(Context)
        match self.GeodeticCRS E create ctx with
        | (.error e, self, ctx) => (.error e, self, ctx)
        | (.ok .null, self, ctx) => (.error .NullReferenceException, self, ctx)
        | (.ok .self, self, ctx) =>
          match self.WithAxisNormalized E create ctx with
          | (.error e, ctx) => (.error e, self, ctx)
          | (.ok target, ctx) => DistanceTransform_build Create3 EnsureDistance self target ctx
        | (.ok (.owned geo), self, ctx) =>
          match geo.WithAxisNormalized E create ctx with
          | (.error e, ctx) => (.error e, self, ctx)
          | (.ok target, ctx) => DistanceTransform_build Create3 EnsureDistance self target ctx
      else
        (.ok self.m_distanceTransform, self, ctx)

end CoordinateReferenceSystem

/-! ## ProjObject: metadata properties -/

/-- The class `IdentifierList` (ProjObject.h 131-164): the indexes of the items
it has created so far, `none` while `m_Items` is `nullptr`. -/
structure IdentifierList where
  m_Items : Option (List Nat)
deriving DecidableEq, Repr

/-- The class `UsageArea` (ProjObject.h 167-280), as its constructor fills
it. -/
structure UsageArea where
  m_westLongitude : Double
  m_southLatitude : Double
  m_eastLongitude : Double
  m_northLatitude : Double
  m_name : Option String
deriving DecidableEq, Repr

/-- A `ProjObject` with the cache fields of ProjObject.h 287-292 that its
metadata properties use: the handle, `m_name`, `m_infoDefinition`, `m_scope`
and `m_idList`. -/
structure ProjObjectInfo where
  m_pj : Option PJ
  m_name : Option String
  m_infoDefinition : Option String
  m_scope : Option String
  m_idList : Option IdentifierList
deriving DecidableEq, Repr

namespace ProjObjectInfo

/-- The object `ProjObject(ctx, pj)` as its constructor leaves it
(ProjObject.h 320-329). -/
def new (pj : PJ) : ProjObjectInfo :=
  { m_pj := some pj, m_name := none, m_infoDefinition := none, m_scope := none,
    m_idList := none }

/-- The getter of `ProjObject::Name` (ProjObject.h 400-410): a null name from
the engine is stored as `nullptr`. -/
def Name (E : Engine) (self : ProjObjectInfo) (ctx : ProjContext) :
    Except Exn (Option String) × ProjObjectInfo × ProjContext :=
  match self.m_name with
  | some n => (.ok (some n), self, ctx)
  | none =>
    match toPJ self.m_pj with
    | .error e => (.error e, self, ctx)
    | .ok h =>
      (.ok (E.proj_get_name h), { self with m_name := E.proj_get_name h },
        ctx.call (.proj_get_name h))

/-- The getter of `ProjObject::Definition` (ProjObject.h 418-429).
`gcnew System::String(info.definition)` is an object, never `nullptr`: the
empty string for a null pointer. -/
def Definition (E : Engine) (self : ProjObjectInfo) (ctx : ProjContext) :
    Except Exn (Option String) × ProjObjectInfo × ProjContext :=
  match self.m_infoDefinition with
  | some d => (.ok (some d), self, ctx)
  | none =>
    match toPJ self.m_pj with
    | .error e => (.error e, self, ctx)
    | .ok h =>
      (.ok (some ((E.proj_pj_info_definition h).getD "")),
        { self with m_infoDefinition := some ((E.proj_pj_info_definition h).getD "") },
        ctx.call (.proj_pj_info h))

/-- The getter of `ProjObject::Scope` (ProjObject.h 431-443);
`Utf8_PtrToString` (pch.h 59-65) maps a null pointer to `nullptr`. -/
def Scope (E : Engine) (self : ProjObjectInfo) (ctx : ProjContext) :
    Except Exn (Option String) × ProjObjectInfo × ProjContext :=
  match self.m_scope with
  | some s => (.ok (some s), self, ctx)
  | none =>
    match toPJ self.m_pj with
    | .error e => (.error e, self, ctx)
    | .ok h =>
      (.ok (E.proj_get_scope h), { self with m_scope := E.proj_get_scope h },
        ctx.call (.proj_get_scope h))

/-- The getter of `ProjObject::UsageArea` (ProjObject.h 453-466): no field
keeps the result. -/
def UsageArea (E : Engine) (self : ProjObjectInfo) (ctx : ProjContext) :
    Except Exn (Option SharpProj.UsageArea) × ProjObjectInfo × ProjContext :=
  match toPJ self.m_pj with
  | .error e => (.error e, self, ctx)
  | .ok h =>
    match E.proj_get_area_of_use h with
    | some (west, south, east, north, name) =>
      (.ok (some { m_westLongitude := west, m_southLatitude := south, m_eastLongitude := east,
                   m_northLatitude := north, m_name := name }),
        self, ctx.call (.proj_get_area_of_use h))
    | none => (.ok none, self, ctx.call (.proj_get_area_of_use h))

/-- Modelled from the spec: the getter of `ProjObject::Identifiers` is only
declared in ProjObject.h (line 520-523), its body is not under src.  Section
4.1 says the identifier list is computed once and memoized: the list object
`IdentifierList(this)` (constructor at ProjObject.h 137-143, which asks the
engine nothing) is created on the first read and kept in `m_idList`. -/
def Identifiers (self : ProjObjectInfo) (ctx : ProjContext) :
    Except Exn (Option IdentifierList) × ProjObjectInfo × ProjContext :=
  match self.m_idList with
  | some l => (.ok (some l), self, ctx)
  | none => (.ok (some { m_Items := none }), { self with m_idList := some { m_Items := none } }, ctx)

end ProjObjectInfo

/-! ## ProjContext: the file finder -/

/-- The parts of `System::IO` and of the environment that `OnFindFile` uses:
`File::Exists`, `Path::Combine`, `Path::GetFullPath` and the value of the
environment variable PROJ_LIB (`none` when it is not set). -/
structure FileSystem where
  Exists : String → Bool
  Combine : String → String → String
  GetFullPath : String → String
  PROJ_LIB : Option String

/-- The method `ProjContext::EnvCombine` (ProjContext.cpp 186-200): it reads
PROJ_LIB whatever `envVar` is; without that variable `Path::Combine` throws an
ArgumentException and `file` comes back. -/
def ProjContext.EnvCombine (fs : FileSystem) (_envVar : String) (file : String) : String :=
  match fs.PROJ_LIB with
  | some dir => fs.GetFullPath (fs.Combine dir file)
  | none => file

/-- The exceptions that the three `catch` clauses of `OnFindFile`
(ProjContext.cpp 225-239) catch: IOException, WebException and
InvalidOperationException, the last with its subclass
ObjectDisposedException. -/
def OnFindFile_catches : Exn → Bool
  | .IOException => true
  | .WebException => true
  | .InvalidOperationException => true
  | .ObjectDisposedException _ => true
  | _ => false

/-- What a call of `OnFindFile` leaves: the exception it threw or the value of
the out parameter `foundFile`, and the paths it handed to `DownloadProjDB`. -/
structure FindFileResult where
  foundFile : Except Exn (Option String)
  downloads : List String

/-- The method `ProjContext::OnFindFile` (ProjContext.cpp 202-246).
`PROJ_VERSION` is the macro of pch.h 56, `foundFile` the value that the out
parameter has on entry.  `DownloadProjDB` (ProjContext.h, not under src)
answers with the file system after the download or with an exception. -/
def ProjContext.OnFindFile (E : Engine) (fs : FileSystem) (PROJ_VERSION : String)
    (DownloadProjDB : String → Except Exn FileSystem)
    (file : String) (foundFile : Option String) : FindFileResult :=
  match E.proj_context_get_user_writable_directory with
  | none =>
    -- Path::Combine(nullptr, file)
    { foundFile := .error (.ArgumentNullException "path1"), downloads := [] }
  | some userDir =>
    if fs.Exists (fs.Combine userDir file) then
      { foundFile := .ok (some (fs.GetFullPath (fs.Combine userDir file))), downloads := [] }
    else if fs.Exists (ProjContext.EnvCombine fs "PROJ_LIB" file) then
      { foundFile := .ok (some (fs.GetFullPath (ProjContext.EnvCombine fs "PROJ_LIB" file))),
        downloads := [] }
    else if fs.Exists (fs.Combine userDir ("proj" ++ PROJ_VERSION ++ "-" ++ file)) then
      { foundFile :=
          .ok (some (fs.GetFullPath (fs.Combine userDir ("proj" ++ PROJ_VERSION ++ "-" ++ file)))),
        downloads := [] }
    else if fs.Exists file then
      { foundFile := .ok (some (fs.GetFullPath file)), downloads := [] }
    else
      -- else if (File::Exists(file = Path::Combine("..", file)))
      let file := fs.Combine ".." file
      if fs.Exists file then
        { foundFile := .ok (some (fs.GetFullPath file)), downloads := [] }
      else if E.proj_context_is_network_enabled then
        let testFile := fs.Combine userDir ("proj" ++ PROJ_VERSION ++ "-" ++ file)
        match DownloadProjDB testFile with
        | .error e =>
          if OnFindFile_catches e then
            { foundFile := .ok none, downloads := [testFile] }
          else
            { foundFile := .error e, downloads := [testFile] }
        | .ok fs2 =>
          if fs2.Exists testFile then
            { foundFile := .ok (some (fs2.GetFullPath testFile)), downloads := [testFile] }
          else
            { foundFile := .ok foundFile, downloads := [testFile] }
      else
        { foundFile := .ok none, downloads := [] }

/-- The callback `my_file_finder` (ProjContext.cpp 54-72).  `target` tells
whether the weak reference still resolves to the context; the result is the
path handed back to the engine. -/
def my_file_finder (E : Engine) (fs : FileSystem) (PROJ_VERSION : String)
    (DownloadProjDB : String → Except Exn FileSystem) (target : Bool) (file : String) :
    Except Exn String :=
  if target then
    match (ProjContext.OnFindFile E fs PROJ_VERSION DownloadProjDB file none).foundFile with
    | .error e => .error e
    | .ok (some newFile) => if newFile ≠ file then .ok newFile else .ok file
    | .ok none => .ok file
  else .ok file

/-- The five local candidates of `OnFindFile` for a requested name, in the
order in which they are tested. -/
def OnFindFile_candidates (fs : FileSystem) (PROJ_VERSION : String) (userDir : String)
    (file : String) : List String :=
  [fs.Combine userDir file,
   ProjContext.EnvCombine fs "PROJ_LIB" file,
   fs.Combine userDir ("proj" ++ PROJ_VERSION ++ "-" ++ file),
   file,
   fs.Combine ".." file]

/-! ## CoordinateReferenceSystem: construction from text -/

/-- The test `Char::IsWhiteSpace` of .NET: the space separators, the line and
paragraph separators, and the control characters U+0009 to U+000D and
U+0085. -/
def Char_IsWhiteSpace (c : Char) : Bool :=
  (9 ≤ c.toNat && c.toNat ≤ 13) || c.toNat = 32 || c.toNat = 133 || c.toNat = 160 ||
    c.toNat = 5760 || (8192 ≤ c.toNat && c.toNat ≤ 8202) || c.toNat = 8232 ||
    c.toNat = 8233 || c.toNat = 8239 || c.toNat = 8287 || c.toNat = 12288

/-- The test `String::IsNullOrWhiteSpace`. -/
def String_IsNullOrWhiteSpace : Option String → Bool
  | none => true
  | some s => s.toList.all Char_IsWhiteSpace

/-- The method `String::Trim()`. -/
def String_Trim (s : String) : String :=
  String.mk ((s.toList.dropWhile Char_IsWhiteSpace).reverse.dropWhile Char_IsWhiteSpace).reverse

/-- The method `String::StartsWith(String^)`. -/
def String_StartsWith (s value : String) : Bool :=
  value.toList.isPrefixOf s.toList

/-- Whether the characters `value` occur in a row somewhere in a list. -/
def listContains (value : List Char) : List Char → Bool
  | [] => value.isPrefixOf []
  | c :: cs => value.isPrefixOf (c :: cs) || listContains value cs

/-- The method `String::Contains(String^)`. -/
def String_Contains (s value : String) : Bool :=
  listContains value.toList s.toList

/-- The test `catch (ProjException^)`. -/
def Exn.isProjException : Exn → Bool
  | .ProjException _ _ => true
  | _ => false

/-- The text of the exception thrown at CoordinateReferenceSystem.cpp 77:
the format "'0' doesn't describe a coordinate system" applied to `text`. -/
def notACrsMessage (text : String) : String :=
  "'" ++ text ++ "' doesn't describe a coordinate system"

/-- The method `CoordinateReferenceSystem::Create(String^ from, ProjContext^ ctx)`
(CoordinateReferenceSystem.cpp 48-81).  It calls itself; the first argument
bounds the depth of the calls, and `none` is returned when the bound is
used up. -/
def CoordinateReferenceSystem.Create (E : Engine) (create : PJ → CoordinateReferenceSystem) :
    Nat → Option String → ProjContext →
      Option (Except Exn CoordinateReferenceSystem × ProjContext)
  | 0, _, _ => none
  | fuel + 1, fromText, ctx =>
    match fromText with
    | none => some (.error (.ArgumentNullException "from"), ctx)
    | some text =>
      if String_IsNullOrWhiteSpace (some text) then
        some (.error (.ArgumentNullException "from"), ctx)
      else
        let ctx := ctx.call (.proj_create text)
        match E.proj_create text with
        | none => some (.error (ctx.ConstructException E).1, (ctx.ConstructException E).2)
        | some pj =>
          let ctx := ctx.call (.proj_is_crs pj)
          if E.proj_is_crs pj then
            some (.ok (create pj), ctx)
          else
            let ctx := ctx.call (.proj_destroy pj)
            if String_StartsWith (String_Trim text) "+" && !String_Contains text "+type=crs" then
              match CoordinateReferenceSystem.Create E create fuel
                  (some (text ++ " +type=crs")) ctx with
              | none => none
              | some (.ok crs, ctx) => some (.ok crs, ctx)
              | some (.error e, ctx) =>
                if e.isProjException then
                  some (.error (.ProjException (some (notACrsMessage text)) none), ctx)
                else
                  some (.error e, ctx)
            else
              some (.error (.ProjException (some (notACrsMessage text)) none), ctx)

/-- The class `WktOptions` (ProjObject.h 113-128).  The managed enum `WktType`
(ProjObject.h 70-80) is kept by its value of `PJ_WKT_TYPE`, to which
`AsWellKnownText` casts it. -/
structure WktOptions where
  WktType : PJ_WKT_TYPE
  SingleLine : Bool
  NoIndentation : Bool
  WriteAxis : Option Bool
  Strict : Bool
  AllowEllipsoidalHeightAsVerticalCRS : Bool
deriving DecidableEq, Repr

/-- The object `gcnew WktOptions()` (ProjObject.h 124-127). -/
def WktOptions.new : WktOptions :=
  { WktType := .WKT2_2019, SingleLine := false, NoIndentation := false, WriteAxis := none,
    Strict := false, AllowEllipsoidalHeightAsVerticalCRS := false }

/-- The entries that `AsWellKnownText` puts into `opts`, in order
(ProjObject.h 477-500). -/
def AsWellKnownText_opts (options : Option WktOptions) : List String :=
  -- PJ_WKT_TYPE tp = options ? (PJ_WKT_TYPE)options->WktType : PJ_WKT2_2019;
  let tp : PJ_WKT_TYPE :=
    match options with
    | some o => o.WktType
    | none => .WKT2_2019
  (match options with
    | some o =>
      if (decide (tp ≠ .WKT1_ESRI)) = o.SingleLine then
        [if tp ≠ .WKT1_ESRI then "MULTILINE=NO" else "MULTILINE=YES"]
      else []
    | none => []) ++
  (match options with
    | some o => if o.NoIndentation then ["INDENTATION_WIDTH=0"] else []
    | none => []) ++
  (match options with
    | some o =>
      match o.WriteAxis with
      | some true => ["OUTPUT_AXIS=YES"]
      | some false => ["OUTPUT_AXIS=NO"]
      | none => []
    | none => []) ++
  (match options with
    | some o => if !o.Strict then ["STRICT=NO"] else []
    | none => ["STRICT=NO"]) ++
  (match options with
    | some o =>
      if o.AllowEllipsoidalHeightAsVerticalCRS then
        ["ALLOW_ELLIPSOIDAL_HEIGHT_AS_VERTICAL_CRS=YES"]
      else []
    | none => [])

/-- The method `ProjObject::AsWellKnownText(WktOptions^)` (ProjObject.h
475-505) of an object whose handle field is `m_pj`: the call is
`proj_as_wkt(Context, this, PJ_WKT2_2019, opts)`. -/
def ProjObject.AsWellKnownText (E : Engine) (m_pj : Option PJ) (options : Option WktOptions)
    (ctx : ProjContext) : Except Exn (Option String) × ProjContext :=
  match toPJ m_pj with
  | .error e => (.error e, ctx)
  | .ok h =>
    (.ok (E.proj_as_wkt h .WKT2_2019 (AsWellKnownText_opts options)),
      ctx.call (.proj_as_wkt h .WKT2_2019 (AsWellKnownText_opts options)))

/-! ## ProjContext: the log callback -/

/-- The level `PJ_LOG_ERROR` of the enumeration `PJ_LOG_LEVEL` of proj.h
(PJ_LOG_NONE = 0, PJ_LOG_ERROR = 1, PJ_LOG_DEBUG = 2, PJ_LOG_TRACE = 3,
PJ_LOG_TELL = 4). -/
def PJ_LOG_ERROR : Int := 1

/-- The object `WeakReference<ProjContext^>` that the constructor of the
context hands to the engine as `user_data` (ProjContext.cpp 100-104): the
context while it is still reachable, `none` once it has been collected. -/
structure WeakReference where
  target : Option ProjContext
deriving DecidableEq, Repr

/-- The method `WeakReference::TryGetTarget`: the context when it is still
reachable. -/
def WeakReference.TryGetTarget (ref : WeakReference) : Option ProjContext :=
  ref.target

/-- One call of `ProjContext::OnLogMessage` (ProjContext.cpp 248-256): the
level and the text with which the event `OnLog` is raised.  The handlers
subscribed to the event are code of the caller. -/
structure LogEvent where
  level : Int
  message : Option String
deriving DecidableEq, Repr

/-- The callback `my_log_func` (ProjContext.cpp 74-90).  `message` is the C
string of the engine (`none` for a null pointer, which `Utf8_PtrToString`
turns into `nullptr`).  The result is the weak reference with its target as the
callback leaves it, and the calls of `OnLogMessage` it made. -/
def my_log_func (ref : WeakReference) (level : Int) (message : Option String) :
    WeakReference × List LogEvent :=
  match ref.TryGetTarget with
  | some pc =>
    let msg := message
    if level = PJ_LOG_ERROR then
      ({ target := some { pc with m_lastError := msg } }, [{ level := level, message := msg }])
    else
      ({ target := some { pc with m_lastError := none } }, [{ level := level, message := msg }])
  | none => (ref, [])

/-- The engine invoking the log callback once for each message of a list, in
order: the weak reference after the last invocation. -/
def my_log_func_all (ref : WeakReference) : List (Int × Option String) → WeakReference
  | [] => ref
  | m :: rest => my_log_func_all (my_log_func ref m.1 m.2).1 rest

/-! ## Concrete inputs

One engine, one point type and a few objects on which the definitions above are
evaluated.  Handles: 1 is a geographic CRS, 2 a projected CRS, 3 a CRS for
which the engine has no coordinate system, 4 a compound CRS with the
components 5, 6 and 7, 8 a geocentric CRS, 9 a compound CRS; 50 to 52 are
operations, 60 to 62 objects that are no CRS. -/

namespace Sample

/-- A point that remembers the arguments of the constructor that built it. -/
structure Point where
  axis : Int
  coord : PJ_COORD
deriving DecidableEq, Repr

/-- The members of `PPoint` for `Point`. -/
def ops : PPointOps Point where
  X := fun p => p.coord.v0
  Y := fun p => p.coord.v1
  Z := fun p => p.coord.v2
  T := fun p => p.coord.v3
  ofAxis := fun n c => { axis := n, coord := c }
  ofCoord := fun c => { axis := 4, coord := c }

/-- An engine: it finds two operations from CRS 1 to CRS 2 and none from 2 to
1; operation 51 answers every transform with a NaN in the second component
only; CRS 3 has no coordinate system, and nothing else can be derived from it
(no geodetic CRS, datum, ellipsoid, prime meridian, name or scope); the
coordinate systems of CRS 6 and 7 have one axis, every other one has two; 9 is
a second compound CRS.  The text "+proj=latlong" parses to the non-CRS object
60 and becomes CRS 1 with the CRS hint, "+proj=utm +zone=31" parses to the
non-CRS object 61 and to nothing with the hint, "EPSG:1024" is the non-CRS
object 62. -/
def engine : Engine where
  proj_create_operation_factory_context := fun _ => true
  proj_context_is_network_enabled := false
  proj_create_operations := fun s t _ =>
    if s = 1 ∧ t = 2 then some [some 50, some 51]
    else if s = 2 ∧ t = 1 then some []
    else if s = 1 ∧ t = 8 then some [some 52, some 50]
    else none
  proj_get_type := fun pj =>
    if pj = 1 then .Geographic2DCrs
    else if pj = 4 ∨ pj = 9 then .CompoundCrs
    else if pj = 8 then .GeocentricCrs
    else .ProjectedCrs
  proj_context_errno := 0
  proj_errno_string := fun _ => some "Unknown error"
  proj_trans := fun pj _ c => if pj = 51 then { c with v1 := .nan } else c
  proj_get_source_crs := fun pj => if 50 ≤ pj ∧ pj ≤ 52 then some 1 else none
  proj_get_target_crs := fun pj =>
    if pj = 50 ∨ pj = 51 then some 2 else if pj = 52 then some 3 else none
  proj_crs_get_coordinate_system := fun pj => if pj = 3 then none else some (pj + 100)
  proj_cs_get_axis_count := fun cs => if cs = 106 ∨ cs = 107 then 1 else 2
  proj_crs_get_geodetic_crs := fun pj => if pj = 3 then none else some (pj + 200)
  proj_crs_get_datum := fun pj => if pj = 3 then none else some (pj + 300)
  proj_crs_get_datum_ensemble := fun _ => none
  proj_lp_dist := fun _ a _ => a.v0
  proj_lpz_dist := fun _ a _ => a.v0
  proj_geod := fun _ a _ => a
  proj_get_ellipsoid := fun pj => if pj = 3 then none else some (pj + 400)
  proj_get_prime_meridian := fun pj => if pj = 3 then none else some (pj + 500)
  proj_normalize_for_visualization := fun pj => some (pj + 600)
  proj_get_name := fun pj => if pj = 3 then none else some "WGS 84"
  proj_pj_info_definition := fun _ => some ""
  proj_get_scope := fun pj => if pj = 3 then none else some "Horizontal component of 3D system."
  proj_get_area_of_use := fun _ =>
    some (.num (-180), .num (-90), .num 180, .num 90, some "World.")
  proj_as_wkt := fun _ _ _ => some "GEOGCRS[]"
  proj_create := fun text =>
    if text = "+proj=latlong" then some 60
    else if text = "+proj=latlong +type=crs" then some 1
    else if text = "+proj=utm +zone=31" then some 61
    else if text = "EPSG:4326" then some 1
    else if text = "EPSG:1024" then some 62
    else none
  proj_is_crs := fun pj => pj < 50
  proj_context_get_user_writable_directory := some "/home/user/proj"

/-- The wrapper that the context creates around a CRS handle: a list with three
components for the compound CRS 4, a geodetic CRS for 1, a plain one
otherwise. -/
def create (pj : PJ) : CoordinateReferenceSystem :=
  if pj = 4 then
    .new 4 .list [.new 5 .plain [], .new 6 .plain [], .new 7 .plain []]
  else if pj = 1 then .new 1 .geodetic []
  else .new pj .plain []

/-- A context with an empty error slot and no call made yet. -/
def ctx0 : ProjContext := { m_lastError := none, calls := [] }

/-- A fresh transform around the operation handle `pj`. -/
def transform (pj : PJ) : CoordinateTransform := .mk (some pj) none none 0

/-- The point (10, 20, 0, 0). -/
def p : Point := { axis := 2, coord := { v0 := .num 10, v1 := .num 20, v2 := .num 0, v3 := .num 0 } }

/-- A stand-in for `ToRad` on the integer codes: not the identity. -/
def toRad : Double → Double
  | .nan => .nan
  | .num n => .num (1000 + n)

/-- A file system in which only "/usr/share/proj/proj.db" exists; paths are
combined with a slash and are their own full paths; PROJ_LIB is
"/usr/share/proj". -/
def fs : FileSystem where
  Exists := fun path => path = "/usr/share/proj/proj.db"
  Combine := fun a b => a ++ "/" ++ b
  GetFullPath := fun path => path
  PROJ_LIB := some "/usr/share/proj"

/-- A download that fails with an IOException. -/
def noDownload : String → Except Exn FileSystem := fun _ => .error .IOException

/-- The sample engine with network access enabled. -/
def engineNet : Engine := { engine with proj_context_is_network_enabled := true }

/-- The sample engine for which CRS 2 is derived from the base CRS 1. -/
def engineDerived : Engine :=
  { engine with proj_get_source_crs := fun pj => if pj = 2 then some 1 else none }

end Sample

/-! ## Theorems -/

/-- With live CRSs, a factory context and a candidate list from the engine, the
shared part of `Create` fails on the empty list and otherwise yields the list
and its first entry. -/
theorem Create_candidates_eq (E : Engine) (src tgt : CoordinateReferenceSystem) (s t : PJ)
    (options : Option CoordinateTransformOptions) (ctx : ProjContext) (op_list : PJ_OBJ_LIST)
    (hs : src.m_pj = some s) (ht : tgt.m_pj = some t)
    (hf : E.proj_create_operation_factory_context
      (operationFactoryContext E (options.getD CoordinateTransformOptions.default)).authority = true)
    (hl : E.proj_create_operations s t
      (operationFactoryContext E (options.getD CoordinateTransformOptions.default)) = some op_list) :
    Create_candidates E (some src) (some tgt) options ctx =
      if op_list.length = 0 then
        (.error (.ProjException (some "No operation found matching criteria") none),
          (((((ctx.call .proj_create_operation_factory_context).call
            (.proj_create_operations s t)).call .proj_operation_factory_context_destroy).call
            .proj_list_get_count).call .proj_list_destroy))
      else
        (.ok (some (s, t, options.getD CoordinateTransformOptions.default, op_list,
          (op_list.head?).join)),
          (((((ctx.call .proj_create_operation_factory_context).call
            (.proj_create_operations s t)).call .proj_operation_factory_context_destroy).call
            .proj_list_get_count).call (.proj_list_get 0))) := by
  simp only [Create_candidates, CoordinateReferenceSystem.toBool, hs, ht, hf, hl, Option.bind]
  simp

/-- With a usable first candidate the test of line 119 is false exactly when
there are several candidates, no area and no geocentric CRS. -/
theorem Create_commits_false_iff (E : Engine) (s t : PJ) (options : CoordinateTransformOptions)
    (op_list : PJ_OBJ_LIST) (P : PJ) (ctx : ProjContext) (hne : op_list ≠ []) :
    (Create_commits E s t options op_list (some P) ctx).1 = false ↔
      (1 < op_list.length ∧ options.Area = none ∧
        E.proj_get_type s ≠ .GeocentricCrs ∧ E.proj_get_type t ≠ .GeocentricCrs) := by
  have hlen : 0 < op_list.length := List.length_pos.mpr hne
  unfold Create_commits
  by_cases h1 : op_list.length = 1
  · simp [h1]
  · have h1' : 1 < op_list.length := by omega
    cases hA : options.Area with
    | some a => simp [h1]
    | none =>
      by_cases hs : E.proj_get_type s = .GeocentricCrs
      · simp [h1, hs]
      · simp [h1, hs, h1']

/-- C1. Given a non-empty candidate list whose first entry is a usable handle
`P`, both `CoordinateTransform::Create` and `CoordinateOperation::Create` return
the deferred choice holding `P` and the whole list exactly when the list has
more than one candidate, the options carry no area of interest and neither CRS
is of geocentric type; in every other case they destroy the list and return the
single operation wrapping `P`. -/
theorem Create_defers_iff (E : Engine) (src tgt : CoordinateReferenceSystem) (s t : PJ)
    (options : Option CoordinateTransformOptions) (ctx : ProjContext)
    (op_list : PJ_OBJ_LIST) (P : PJ)
    (hs : src.m_pj = some s) (ht : tgt.m_pj = some t)
    (hf : E.proj_create_operation_factory_context
      (operationFactoryContext E (options.getD CoordinateTransformOptions.default)).authority = true)
    (hl : E.proj_create_operations s t
      (operationFactoryContext E (options.getD CoordinateTransformOptions.default)) = some op_list)
    (hP : op_list.head? = some (some P)) :
    ((CoordinateTransform.Create E (some src) (some tgt) options ctx).1 =
          .ok (.choose (some P) op_list) ↔
        (1 < op_list.length ∧ (options.getD CoordinateTransformOptions.default).Area = none ∧
          E.proj_get_type s ≠ .GeocentricCrs ∧ E.proj_get_type t ≠ .GeocentricCrs)) ∧
    ((CoordinateOperation.Create E (some src) (some tgt) options ctx).1 =
          .ok (.choose (some P) op_list) ↔
        (1 < op_list.length ∧ (options.getD CoordinateTransformOptions.default).Area = none ∧
          E.proj_get_type s ≠ .GeocentricCrs ∧ E.proj_get_type t ≠ .GeocentricCrs)) ∧
    (¬ (1 < op_list.length ∧ (options.getD CoordinateTransformOptions.default).Area = none ∧
        E.proj_get_type s ≠ .GeocentricCrs ∧ E.proj_get_type t ≠ .GeocentricCrs) →
      (CoordinateTransform.Create E (some src) (some tgt) options ctx).1 =
          .ok (.single (some P)) ∧
        (CoordinateOperation.Create E (some src) (some tgt) options ctx).1 =
          .ok (.single (some P)) ∧
        Call.proj_list_destroy ∈
          (CoordinateTransform.Create E (some src) (some tgt) options ctx).2.calls ∧
        Call.proj_list_destroy ∈
          (CoordinateOperation.Create E (some src) (some tgt) options ctx).2.calls) := by
  have hne : op_list ≠ [] := by
    intro h
    simp [h] at hP
  have hlen : ¬ op_list.length = 0 := by
    intro h
    exact hne (List.length_eq_zero.mp h)
  have hc := Create_candidates_eq E src tgt s t options ctx op_list hs ht hf hl
  simp only [hlen, if_false, hP, Option.join] at hc
  have hiff := fun c => Create_commits_false_iff E s t
    (options.getD CoordinateTransformOptions.default) op_list P c hne
  have key : ∀ c, ¬ (1 < op_list.length ∧
      (options.getD CoordinateTransformOptions.default).Area = none ∧
      E.proj_get_type s ≠ .GeocentricCrs ∧ E.proj_get_type t ≠ .GeocentricCrs) →
      (Create_commits E s t (options.getD CoordinateTransformOptions.default)
        op_list (some P) c).1 = true := by
    intro c hd
    cases hb : (Create_commits E s t (options.getD CoordinateTransformOptions.default)
      op_list (some P) c).1 with
    | true => rfl
    | false => exact absurd ((hiff c).mp hb) hd
  have hsingle : ¬ (1 < op_list.length ∧
      (options.getD CoordinateTransformOptions.default).Area = none ∧
      E.proj_get_type s ≠ .GeocentricCrs ∧ E.proj_get_type t ≠ .GeocentricCrs) →
      (CoordinateTransform.Create E (some src) (some tgt) options ctx).1 =
          .ok (.single (some P)) ∧
        (CoordinateOperation.Create E (some src) (some tgt) options ctx).1 =
          .ok (.single (some P)) ∧
        Call.proj_list_destroy ∈
          (CoordinateTransform.Create E (some src) (some tgt) options ctx).2.calls ∧
        Call.proj_list_destroy ∈
          (CoordinateOperation.Create E (some src) (some tgt) options ctx).2.calls := by
    intro hd
    have k := fun c => key c hd
    simp [CoordinateTransform.Create, CoordinateOperation.Create, hc, k, ProjContext.call]
  have hchoose : (1 < op_list.length ∧
      (options.getD CoordinateTransformOptions.default).Area = none ∧
      E.proj_get_type s ≠ .GeocentricCrs ∧ E.proj_get_type t ≠ .GeocentricCrs) →
      (CoordinateTransform.Create E (some src) (some tgt) options ctx).1 =
          .ok (.choose (some P) op_list) ∧
        (CoordinateOperation.Create E (some src) (some tgt) options ctx).1 =
          .ok (.choose (some P) op_list) := by
    intro hd
    have h2 := fun c => (hiff c).mpr hd
    simp [CoordinateTransform.Create, CoordinateOperation.Create, hc, h2]
  refine ⟨⟨fun h => ?_, fun hd => (hchoose hd).1⟩, ⟨fun h => ?_, fun hd => (hchoose hd).2⟩, hsingle⟩
  · by_contra hd
    rw [(hsingle hd).1] at h
    simp at h
  · by_contra hd
    rw [(hsingle hd).2.1] at h
    simp at h

/-- Witness of C1: the sample engine offers two operations from CRS 1 to CRS 2,
no area is given and neither CRS is geocentric, so the choice is deferred. -/
theorem Create_defers_iff_witness :
    (CoordinateTransform.Create Sample.engine (some (Sample.create 1)) (some (Sample.create 2))
        none Sample.ctx0).1 = .ok (.choose (some 50) [some 50, some 51]) :=
  (Create_defers_iff Sample.engine (Sample.create 1) (Sample.create 2) 1 2 none Sample.ctx0
    [some 50, some 51] 50 rfl rfl rfl rfl rfl).1.mpr (by decide)

/-- C2. When the engine answers with a candidate list of zero entries, both
`Create` methods throw the ProjException "No operation found matching criteria"
and return nothing. -/
theorem Create_empty_list_fails (E : Engine) (src tgt : CoordinateReferenceSystem) (s t : PJ)
    (options : Option CoordinateTransformOptions) (ctx : ProjContext)
    (hs : src.m_pj = some s) (ht : tgt.m_pj = some t)
    (hf : E.proj_create_operation_factory_context
      (operationFactoryContext E (options.getD CoordinateTransformOptions.default)).authority = true)
    (hl : E.proj_create_operations s t
      (operationFactoryContext E (options.getD CoordinateTransformOptions.default)) = some []) :
    (CoordinateTransform.Create E (some src) (some tgt) options ctx).1 =
        .error (.ProjException (some "No operation found matching criteria") none) ∧
      (CoordinateOperation.Create E (some src) (some tgt) options ctx).1 =
        .error (.ProjException (some "No operation found matching criteria") none) := by
  have hc := Create_candidates_eq E src tgt s t options ctx [] hs ht hf hl
  simp only [List.length_nil, if_true] at hc
  simp [CoordinateTransform.Create, CoordinateOperation.Create, hc]

/-- Witness of C2: the sample engine finds no operation from CRS 2 to CRS 1. -/
theorem Create_empty_list_fails_witness :
    (CoordinateTransform.Create Sample.engine (some (Sample.create 2)) (some (Sample.create 1))
        none Sample.ctx0).1 =
        .error (.ProjException (some "No operation found matching criteria") none) ∧
      (CoordinateOperation.Create Sample.engine (some (Sample.create 2)) (some (Sample.create 1))
        none Sample.ctx0).1 =
        .error (.ProjException (some "No operation found matching criteria") none) :=
  Create_empty_list_fails Sample.engine (Sample.create 2) (Sample.create 1) 2 1 none Sample.ctx0
    rfl rfl rfl rfl

/-- On a live transform, `DoTransform` is the test of `v[0]` followed by
`FromCoordinate`. -/
theorem DoTransform_eq {P : Type} (M : PPointOps P) (E : Engine)
    (create : PJ → CoordinateReferenceSystem) (self : CoordinateTransform) (forward : Bool)
    (coordinate : P) (ctx : ProjContext) (h : PJ) (hh : self.m_pj = some h) :
    CoordinateTransform.DoTransform M E create self forward coordinate ctx =
      if (E.proj_trans h forward (SetCoordinate M coordinate)).v0.IsNaN then
        (.error ((ctx.call (.proj_trans h)).ConstructException E).1, self,
          ((ctx.call (.proj_trans h)).ConstructException E).2)
      else
        CoordinateTransform.FromCoordinate M E create self
          (E.proj_trans h forward (SetCoordinate M coordinate)) forward
          (ctx.call (.proj_trans h)) := by
  simp [CoordinateTransform.DoTransform, hh, toPJ]

/-- A point returned by `FromCoordinate` is `PPoint(axis, coord)` for the computed
`axis`. -/
theorem FromCoordinate_ok {P : Type} (M : PPointOps P) (E : Engine)
    (create : PJ → CoordinateReferenceSystem) (self : CoordinateTransform) (coord : PJ_COORD)
    (forward : Bool) (ctx : ProjContext) (pt : P)
    (h : (CoordinateTransform.FromCoordinate M E create self coord forward ctx).1 = .ok pt) :
    ∃ n, (CoordinateTransform.FromCoordinate_axis E create self forward ctx).1 = .ok n ∧
      pt = M.ofAxis n coord := by
  unfold CoordinateTransform.FromCoordinate at h
  split at h
  · simp at h
  · next axis self2 ctx2 heq =>
    simp only [Except.ok.injEq] at h
    exact ⟨axis, by rw [heq], h.symm⟩

/-- When the axis number is computed, `FromCoordinate` returns
`PPoint(axis, coord)`. -/
theorem FromCoordinate_of_axis {P : Type} (M : PPointOps P) (E : Engine)
    (create : PJ → CoordinateReferenceSystem) (self : CoordinateTransform) (coord : PJ_COORD)
    (forward : Bool) (ctx : ProjContext) (n : Int)
    (h : (CoordinateTransform.FromCoordinate_axis E create self forward ctx).1 = .ok n) :
    (CoordinateTransform.FromCoordinate M E create self coord forward ctx).1 =
      .ok (M.ofAxis n coord) := by
  unfold CoordinateTransform.FromCoordinate
  split
  · next e self2 ctx2 heq =>
    rw [heq] at h
    simp at h
  · next axis self2 ctx2 heq =>
    rw [heq] at h
    simp only [Except.ok.injEq] at h
    simp [h]

/-- C3, as amended. On a live transform `DoTransform` throws the exception that
the Context constructs whenever the FIRST component `v[0]` of the engine's
result is a NaN; and a point that `DoTransform` returns is `PPoint(n, coord)`
for the engine's result `coord`, whose first component is not a NaN.  The other
three components are not tested. -/
theorem DoTransform_NaN_first {P : Type} (M : PPointOps P) (E : Engine)
    (create : PJ → CoordinateReferenceSystem) (self : CoordinateTransform) (forward : Bool)
    (coordinate : P) (ctx : ProjContext) (h : PJ) (hh : self.m_pj = some h) :
    ((E.proj_trans h forward (SetCoordinate M coordinate)).v0.IsNaN = true →
      (CoordinateTransform.DoTransform M E create self forward coordinate ctx).1 =
        .error ((ctx.call (.proj_trans h)).ConstructException E).1) ∧
    (∀ pt, (CoordinateTransform.DoTransform M E create self forward coordinate ctx).1 = .ok pt →
      (E.proj_trans h forward (SetCoordinate M coordinate)).v0.IsNaN = false ∧
        ∃ n, pt = M.ofAxis n (E.proj_trans h forward (SetCoordinate M coordinate))) := by
  rw [DoTransform_eq M E create self forward coordinate ctx h hh]
  constructor
  · intro hn
    simp [hn]
  · intro pt hpt
    cases hn : (E.proj_trans h forward (SetCoordinate M coordinate)).v0.IsNaN with
    | true => simp [hn] at hpt
    | false =>
      simp only [hn] at hpt
      obtain ⟨n, -, hn2⟩ := FromCoordinate_ok M E create self _ forward _ pt hpt
      exact ⟨rfl, n, hn2⟩

/-- Witness of C3 as amended: operation 51 of the sample engine, applied to a
point whose first component is a NaN, answers with that NaN in `v[0]`, and the
call fails with the constructed exception. -/
theorem DoTransform_NaN_first_witness :
    (CoordinateTransform.DoTransform Sample.ops Sample.engine Sample.create
        (Sample.transform 51) true
        { axis := 2, coord := { v0 := .nan, v1 := .num 20, v2 := .num 0, v3 := .num 0 } }
        Sample.ctx0).1 =
      .error (.ProjException (some "Unknown error") none) :=
  (DoTransform_NaN_first Sample.ops Sample.engine Sample.create (Sample.transform 51) true
    { axis := 2, coord := { v0 := .nan, v1 := .num 20, v2 := .num 0, v3 := .num 0 } }
    Sample.ctx0 51 rfl).1 rfl

/-- Counterexample to C3 as stated: the engine's result for operation 51 has a
NaN in its second component only; `DoTransform` does not fail but returns the
point built from that result, NaN included. -/
theorem DoTransform_returns_NaN_component :
    (Sample.engine.proj_trans 51 true (SetCoordinate Sample.ops Sample.p)).anyNaN = true ∧
      (CoordinateTransform.DoTransform Sample.ops Sample.engine Sample.create
        (Sample.transform 51) true Sample.p Sample.ctx0).1 =
        .ok { axis := 2, coord := { v0 := .num 10, v1 := .nan, v2 := .num 0, v3 := .num 0 } } := by
  constructor
  · rfl
  · rfl

/-- Counterexample to C4 as stated: the target CRS 3 of operation 52 has no
coordinate system, so its `AxisCount` is the sentinel -1, and the point that
the forward `DoTransform` returns is built with -1 components, not with 4. -/
theorem DoTransform_sentinel_axis :
      (CoordinateTransform.DoTransform Sample.ops Sample.engine Sample.create
        (Sample.transform 52) true Sample.p Sample.ctx0).1 =
        .ok { axis := -1, coord := { v0 := .num 10, v1 := .num 20, v2 := .num 0, v3 := .num 0 } } := by
  rfl

/-- For every class but the list, the virtual `AxisCount` is the base getter. -/
theorem AxisCount_of_not_list (E : Engine) (crs : CoordinateReferenceSystem) (ctx : ProjContext)
    (hc : crs.cls ≠ .list) : crs.AxisCount E ctx = crs.AxisCount_base E ctx := by
  cases crs with
  | mk pj c cs g el da pm b dt ax it =>
    simp only [CoordinateReferenceSystem.cls] at hc
    cases c <;> simp_all [CoordinateReferenceSystem.AxisCount]

/-- An unresolved, live, non-compound CRS for which the engine has no coordinate
system resolves its axis count to the sentinel -1. -/
theorem AxisCount_base_no_cs (E : Engine) (crs : CoordinateReferenceSystem) (ctx : ProjContext)
    (pj : PJ) (hpj : crs.m_pj = some pj) (hax : crs.m_axis = 0) (hcs : crs.m_cs = none)
    (ht : E.proj_get_type pj ≠ .CompoundCrs)
    (hq : E.proj_crs_get_coordinate_system pj = none) :
    (crs.AxisCount_base E ctx).1 = .ok (-1) := by
  cases crs with
  | mk pj' c cs g el da pm b dt ax it =>
    simp only [CoordinateReferenceSystem.m_pj, CoordinateReferenceSystem.m_axis,
      CoordinateReferenceSystem.m_cs] at hpj hax hcs
    subst hpj hax hcs
    simp [CoordinateReferenceSystem.AxisCount_base, CoordinateReferenceSystem.CoordinateSystem,
      CoordinateReferenceSystem.m_pj, CoordinateReferenceSystem.m_axis,
      CoordinateReferenceSystem.m_cs, CoordinateReferenceSystem.set_m_axis,
      ProjObject.Type, ProjObject.toBool, ht, hq]

/-- C4, as amended. For a successful `DoTransform` on a live transform (the
engine's `v[0]` is not a NaN), with `crs` the target CRS when `forward` is true
and the source CRS otherwise: the point is built with 4 components when `crs`
cannot be resolved (the getter yields `nullptr`, or a disposed object); when
`crs` is a live object the point is built with exactly the number that its
`AxisCount` returns; and that number is the sentinel -1, not 4, for a
non-compound CRS without coordinate system. -/
theorem DoTransform_axis {P : Type} (M : PPointOps P) (E : Engine)
    (create : PJ → CoordinateReferenceSystem) (self : CoordinateTransform) (forward : Bool)
    (coordinate : P) (ctx : ProjContext) (h : PJ) (hh : self.m_pj = some h)
    (hnan : (E.proj_trans h forward (SetCoordinate M coordinate)).v0.IsNaN = false) :
    ((CoordinateTransform.FromCoordinate_crs E create self forward
        (ctx.call (.proj_trans h))).1 = .ok none →
      (CoordinateTransform.DoTransform M E create self forward coordinate ctx).1 =
        .ok (M.ofAxis 4 (E.proj_trans h forward (SetCoordinate M coordinate)))) ∧
    (∀ crs, (CoordinateTransform.FromCoordinate_crs E create self forward
        (ctx.call (.proj_trans h))).1 = .ok (some crs) →
      crs.m_pj = none →
      (CoordinateTransform.DoTransform M E create self forward coordinate ctx).1 =
        .ok (M.ofAxis 4 (E.proj_trans h forward (SetCoordinate M coordinate)))) ∧
    (∀ crs n, (CoordinateTransform.FromCoordinate_crs E create self forward
        (ctx.call (.proj_trans h))).1 = .ok (some crs) →
      crs.m_pj ≠ none →
      (crs.AxisCount E (CoordinateTransform.FromCoordinate_crs E create self forward
        (ctx.call (.proj_trans h))).2.2).1 = .ok n →
      (CoordinateTransform.DoTransform M E create self forward coordinate ctx).1 =
        .ok (M.ofAxis n (E.proj_trans h forward (SetCoordinate M coordinate)))) ∧
    (∀ crs pj, (CoordinateTransform.FromCoordinate_crs E create self forward
        (ctx.call (.proj_trans h))).1 = .ok (some crs) →
      crs.cls ≠ .list → crs.m_pj = some pj → crs.m_axis = 0 → crs.m_cs = none →
      E.proj_get_type pj ≠ .CompoundCrs → E.proj_crs_get_coordinate_system pj = none →
      (CoordinateTransform.DoTransform M E create self forward coordinate ctx).1 =
        .ok (M.ofAxis (-1) (E.proj_trans h forward (SetCoordinate M coordinate)))) := by
  rw [DoTransform_eq M E create self forward coordinate ctx h hh]
  simp only [hnan, Bool.false_eq_true, if_false]
  generalize hR : CoordinateTransform.FromCoordinate_crs E create self forward
    (ctx.call (.proj_trans h)) = R
  have hax : ∀ n, (CoordinateTransform.FromCoordinate_axis E create self forward
      (ctx.call (.proj_trans h))).1 = .ok n →
      (CoordinateTransform.FromCoordinate M E create self
        (E.proj_trans h forward (SetCoordinate M coordinate)) forward
        (ctx.call (.proj_trans h))).1 =
      .ok (M.ofAxis n (E.proj_trans h forward (SetCoordinate M coordinate))) :=
    fun n hn => FromCoordinate_of_axis M E create self _ forward _ n hn
  obtain ⟨r, self2, ctx2⟩ := R
  have h3 : ∀ crs n, r = .ok (some crs) → crs.m_pj ≠ none →
      (crs.AxisCount E ctx2).1 = .ok n →
      (CoordinateTransform.FromCoordinate M E create self
        (E.proj_trans h forward (SetCoordinate M coordinate)) forward
        (ctx.call (.proj_trans h))).1 =
      .ok (M.ofAxis n (E.proj_trans h forward (SetCoordinate M coordinate))) := by
    intro crs n hr hp hn
    apply hax
    subst hr
    unfold CoordinateTransform.FromCoordinate_axis
    rw [hR]
    have hp2 : crs.m_pj.isSome = true := by
      cases hq : crs.m_pj with
      | none => exact absurd hq hp
      | some v => rfl
    simp only [hp2, if_true]
    exact hn
  refine ⟨?_, ?_, h3, ?_⟩
  · intro hr
    simp only at hr
    subst hr
    apply hax
    unfold CoordinateTransform.FromCoordinate_axis
    rw [hR]
  · intro crs hr hp
    simp only at hr
    subst hr
    apply hax
    unfold CoordinateTransform.FromCoordinate_axis
    rw [hR]
    simp [hp]
  · intro crs pj hr hcl hp hm hcs ht hq
    apply h3 crs (-1) hr (by simp [hp])
    rw [AxisCount_of_not_list E crs ctx2 hcl]
    exact AxisCount_base_no_cs E crs ctx2 pj hp hm hcs ht hq

/-- Witness of C4 as amended: operation 50 of the sample engine has the target
CRS 2, whose coordinate system has two axes. -/
theorem DoTransform_axis_witness :
    (CoordinateTransform.DoTransform Sample.ops Sample.engine Sample.create
        (Sample.transform 50) true Sample.p Sample.ctx0).1 =
      .ok { axis := 2, coord := { v0 := .num 10, v1 := .num 20, v2 := .num 0, v3 := .num 0 } } :=
  (DoTransform_axis Sample.ops Sample.engine Sample.create (Sample.transform 50) true Sample.p
    Sample.ctx0 50 rfl rfl).2.2.1 (Sample.create 2) 2 rfl (by decide) rfl

/-- C5. `SetupDistance` always succeeds once `this->TargetCRS->Axis` has been
evaluated, and the descriptor it stores has the flag Setup; SwapXY is set
exactly when the first axis exists and is abbreviated "Lat"; ApplyRad is set
exactly when it is abbreviated "Lat" or "Lon" (so "Lon" gives ApplyRad without
SwapXY, and any other abbreviation, an empty or an absent axis collection give
neither); and only the first axis counts. -/
theorem SetupDistance_flags (axis : Option (List Axis)) (self : CoordinateTransform) :
    (CoordinateTransform.SetupDistance (.ok axis) self).1 = .ok () ∧
    (CoordinateTransform.SetupDistance (.ok axis) self).2.m_distanceFlags &&&
        DistanceFlags.Setup ≠ 0 ∧
    ((CoordinateTransform.SetupDistance (.ok axis) self).2.m_distanceFlags &&&
        DistanceFlags.SwapXY ≠ 0 ↔
      (axis.bind List.head?).map Axis.Abbreviation = some "Lat") ∧
    ((CoordinateTransform.SetupDistance (.ok axis) self).2.m_distanceFlags &&&
        DistanceFlags.ApplyRad ≠ 0 ↔
      ((axis.bind List.head?).map Axis.Abbreviation = some "Lat" ∨
        (axis.bind List.head?).map Axis.Abbreviation = some "Lon")) ∧
    (∀ a rest, CoordinateTransform.SetupDistance (.ok (some (a :: rest))) self =
      CoordinateTransform.SetupDistance (.ok (some [a])) self) := by
  cases self with
  | mk pj s t d =>
    refine ⟨rfl, ?_, ?_, ?_, fun a rest => rfl⟩
    all_goals
      rcases axis with _ | (_ | ⟨a, rest⟩)
      · simp [CoordinateTransform.SetupDistance, CoordinateTransform.set_m_distanceFlags,
          CoordinateTransform.m_distanceFlags, DistanceFlags.Setup, DistanceFlags.ApplyTransform,
          DistanceFlags.SwapXY, DistanceFlags.ApplyRad]
        try decide
      · simp [CoordinateTransform.SetupDistance, CoordinateTransform.set_m_distanceFlags,
          CoordinateTransform.m_distanceFlags, DistanceFlags.Setup, DistanceFlags.ApplyTransform,
          DistanceFlags.SwapXY, DistanceFlags.ApplyRad]
        try decide
      · by_cases h1 : a.Abbreviation = "Lat"
        · simp [CoordinateTransform.SetupDistance, CoordinateTransform.set_m_distanceFlags,
            CoordinateTransform.m_distanceFlags, DistanceFlags.Setup,
            DistanceFlags.ApplyTransform, DistanceFlags.SwapXY, DistanceFlags.ApplyRad, h1]
          try decide
        · by_cases h2 : a.Abbreviation = "Lon"
          · simp [CoordinateTransform.SetupDistance, CoordinateTransform.set_m_distanceFlags,
              CoordinateTransform.m_distanceFlags, DistanceFlags.Setup,
              DistanceFlags.ApplyTransform, DistanceFlags.SwapXY, DistanceFlags.ApplyRad, h2]
            try decide
          · simp [CoordinateTransform.SetupDistance, CoordinateTransform.set_m_distanceFlags,
              CoordinateTransform.m_distanceFlags, DistanceFlags.Setup,
              DistanceFlags.ApplyTransform, DistanceFlags.SwapXY, DistanceFlags.ApplyRad, h1, h2]
            try decide


/-- C6. Under a latitude-first descriptor (SwapXY and ApplyRad) a pre-applied
point (lat, lon) is handed to the engine as (ToRad lon, ToRad lat); under a
longitude-first descriptor (ApplyRad only) a pre-applied point (lon, lat) is
handed to the engine as the same (ToRad lon, ToRad lat): in both cases the
result of `GeoDistance` is the answer of `proj_lp_dist` on the handle of the
transform for exactly these two coordinates.  Hence `GeoDistance` of two points
given latitude-first equals `GeoDistance` of the same points given
longitude-first, when the engine measures alike on the two handles. -/
theorem GeoDistance_swap_invariant {P : Type} (M : PPointOps P) (E : Engine)
    (ToRad : Double → Double) (ApplyLat ApplyLon : P → Except Exn P)
    (tLat tLon : CoordinateTransform) (hLat hLon : PJ)
    (p1 p2 q1 q2 a1 a2 b1 b2 : P) (lat1 lon1 lat2 lon2 : Double)
    (hLatSwap : tLat.m_distanceFlags &&& DistanceFlags.SwapXY ≠ 0)
    (hLatRad : tLat.m_distanceFlags &&& DistanceFlags.ApplyRad ≠ 0)
    (hLonSwap : tLon.m_distanceFlags &&& DistanceFlags.SwapXY = 0)
    (hLonRad : tLon.m_distanceFlags &&& DistanceFlags.ApplyRad ≠ 0)
    (hpLat : CoordinateTransform.preApply ApplyLat tLat.m_distanceFlags p1 p2 = .ok (a1, a2))
    (hpLon : CoordinateTransform.preApply ApplyLon tLon.m_distanceFlags q1 q2 = .ok (b1, b2))
    (ha1 : M.X a1 = lat1 ∧ M.Y a1 = lon1) (hb1 : M.X b1 = lon1 ∧ M.Y b1 = lat1)
    (ha2 : M.X a2 = lat2 ∧ M.Y a2 = lon2) (hb2 : M.X b2 = lon2 ∧ M.Y b2 = lat2)
    (hhLat : tLat.m_pj = some hLat) (hhLon : tLon.m_pj = some hLon) :
    CoordinateTransform.GeoDistance_coord M ToRad tLat.m_distanceFlags a1 =
        { PJ_COORD.zero with v0 := ToRad lon1, v1 := ToRad lat1 } ∧
      CoordinateTransform.GeoDistance_coord M ToRad tLon.m_distanceFlags b1 =
        { PJ_COORD.zero with v0 := ToRad lon1, v1 := ToRad lat1 } ∧
      CoordinateTransform.GeoDistance_coord M ToRad tLat.m_distanceFlags a2 =
        { PJ_COORD.zero with v0 := ToRad lon2, v1 := ToRad lat2 } ∧
      CoordinateTransform.GeoDistance_coord M ToRad tLon.m_distanceFlags b2 =
        { PJ_COORD.zero with v0 := ToRad lon2, v1 := ToRad lat2 } ∧
      CoordinateTransform.GeoDistance M E ApplyLat ToRad tLat p1 p2 =
        .ok (E.proj_lp_dist hLat { PJ_COORD.zero with v0 := ToRad lon1, v1 := ToRad lat1 }
          { PJ_COORD.zero with v0 := ToRad lon2, v1 := ToRad lat2 }) ∧
      CoordinateTransform.GeoDistance M E ApplyLon ToRad tLon q1 q2 =
        .ok (E.proj_lp_dist hLon { PJ_COORD.zero with v0 := ToRad lon1, v1 := ToRad lat1 }
          { PJ_COORD.zero with v0 := ToRad lon2, v1 := ToRad lat2 }) ∧
      (E.proj_lp_dist hLat = E.proj_lp_dist hLon →
        CoordinateTransform.GeoDistance M E ApplyLat ToRad tLat p1 p2 =
          CoordinateTransform.GeoDistance M E ApplyLon ToRad tLon q1 q2) := by
  have c1 : CoordinateTransform.GeoDistance_coord M ToRad tLat.m_distanceFlags a1 =
      { PJ_COORD.zero with v0 := ToRad lon1, v1 := ToRad lat1 } := by
    simp [CoordinateTransform.GeoDistance_coord, hLatSwap, hLatRad, PJ_COORD.swapXY, ha1.1, ha1.2]
  have c2 : CoordinateTransform.GeoDistance_coord M ToRad tLon.m_distanceFlags b1 =
      { PJ_COORD.zero with v0 := ToRad lon1, v1 := ToRad lat1 } := by
    simp [CoordinateTransform.GeoDistance_coord, hLonSwap, hLonRad, hb1.1, hb1.2]
  have c3 : CoordinateTransform.GeoDistance_coord M ToRad tLat.m_distanceFlags a2 =
      { PJ_COORD.zero with v0 := ToRad lon2, v1 := ToRad lat2 } := by
    simp [CoordinateTransform.GeoDistance_coord, hLatSwap, hLatRad, PJ_COORD.swapXY, ha2.1, ha2.2]
  have c4 : CoordinateTransform.GeoDistance_coord M ToRad tLon.m_distanceFlags b2 =
      { PJ_COORD.zero with v0 := ToRad lon2, v1 := ToRad lat2 } := by
    simp [CoordinateTransform.GeoDistance_coord, hLonSwap, hLonRad, hb2.1, hb2.2]
  have g1 : CoordinateTransform.GeoDistance M E ApplyLat ToRad tLat p1 p2 =
      .ok (E.proj_lp_dist hLat { PJ_COORD.zero with v0 := ToRad lon1, v1 := ToRad lat1 }
        { PJ_COORD.zero with v0 := ToRad lon2, v1 := ToRad lat2 }) := by
    simp only [CoordinateTransform.GeoDistance, hpLat, hhLat, toPJ, c1, c3]
  have g2 : CoordinateTransform.GeoDistance M E ApplyLon ToRad tLon q1 q2 =
      .ok (E.proj_lp_dist hLon { PJ_COORD.zero with v0 := ToRad lon1, v1 := ToRad lat1 }
        { PJ_COORD.zero with v0 := ToRad lon2, v1 := ToRad lat2 }) := by
    simp only [CoordinateTransform.GeoDistance, hpLon, hhLon, toPJ, c2, c4]
  refine ⟨c1, c2, c3, c4, g1, g2, ?_⟩
  intro hE
  rw [g1, g2, hE]

/-- Witness of C6: the points (52, 5) and (48, 2) under the descriptor 15
(latitude first) against (5, 52) and (2, 48) under the descriptor 11.  The
sample engine answers with the first component of the first coordinate it
receives, which is ToRad 5 in both cases. -/
theorem GeoDistance_swap_invariant_witness :
    CoordinateTransform.GeoDistance Sample.ops Sample.engine Except.ok Sample.toRad
        (.mk (some 50) none none 15)
        { axis := 2, coord := { v0 := .num 52, v1 := .num 5, v2 := .num 0, v3 := .num 0 } }
        { axis := 2, coord := { v0 := .num 48, v1 := .num 2, v2 := .num 0, v3 := .num 0 } } =
      .ok (.num 1005) ∧
    CoordinateTransform.GeoDistance Sample.ops Sample.engine Except.ok Sample.toRad
        (.mk (some 51) none none 11)
        { axis := 2, coord := { v0 := .num 5, v1 := .num 52, v2 := .num 0, v3 := .num 0 } }
        { axis := 2, coord := { v0 := .num 2, v1 := .num 48, v2 := .num 0, v3 := .num 0 } } =
      .ok (.num 1005) ∧
    CoordinateTransform.GeoDistance Sample.ops Sample.engine Except.ok Sample.toRad
        (.mk (some 50) none none 15)
        { axis := 2, coord := { v0 := .num 52, v1 := .num 5, v2 := .num 0, v3 := .num 0 } }
        { axis := 2, coord := { v0 := .num 48, v1 := .num 2, v2 := .num 0, v3 := .num 0 } } =
      CoordinateTransform.GeoDistance Sample.ops Sample.engine Except.ok Sample.toRad
        (.mk (some 51) none none 11)
        { axis := 2, coord := { v0 := .num 5, v1 := .num 52, v2 := .num 0, v3 := .num 0 } }
        { axis := 2, coord := { v0 := .num 2, v1 := .num 48, v2 := .num 0, v3 := .num 0 } } :=
  have w := GeoDistance_swap_invariant Sample.ops Sample.engine Sample.toRad Except.ok Except.ok
    (.mk (some 50) none none 15) (.mk (some 51) none none 11) 50 51
    { axis := 2, coord := { v0 := .num 52, v1 := .num 5, v2 := .num 0, v3 := .num 0 } }
    { axis := 2, coord := { v0 := .num 48, v1 := .num 2, v2 := .num 0, v3 := .num 0 } }
    { axis := 2, coord := { v0 := .num 5, v1 := .num 52, v2 := .num 0, v3 := .num 0 } }
    { axis := 2, coord := { v0 := .num 2, v1 := .num 48, v2 := .num 0, v3 := .num 0 } }
    { axis := 2, coord := { v0 := .num 52, v1 := .num 5, v2 := .num 0, v3 := .num 0 } }
    { axis := 2, coord := { v0 := .num 48, v1 := .num 2, v2 := .num 0, v3 := .num 0 } }
    { axis := 2, coord := { v0 := .num 5, v1 := .num 52, v2 := .num 0, v3 := .num 0 } }
    { axis := 2, coord := { v0 := .num 2, v1 := .num 48, v2 := .num 0, v3 := .num 0 } }
    (.num 52) (.num 5) (.num 48) (.num 2)
    (by decide) (by decide) (by decide) (by decide) rfl rfl
    ⟨rfl, rfl⟩ ⟨rfl, rfl⟩ ⟨rfl, rfl⟩ ⟨rfl, rfl⟩ rfl rfl
  ⟨w.2.2.2.2.1, w.2.2.2.2.2.1, w.2.2.2.2.2.2 rfl⟩

/-- C7, evaluated at the failing input. The descriptor of a target CRS whose
first axis is abbreviated "X" is 3: ApplyRad is not set.  For the point
(10, 20, 0) `GeoDistance` and `GeoDistanceZ` hand the engine 10 and 20
unconverted, but `Geod` hands it ToRad 10 and ToRad 20, whatever `ToRad` is. -/
theorem Geod_converts_without_ApplyRad (ToRad : Double → Double) :
    (CoordinateTransform.SetupDistance (.ok (some [{ Abbreviation := "X" }]))
        (Sample.transform 50)).2.m_distanceFlags = 3 ∧
      3 &&& DistanceFlags.ApplyRad = 0 ∧
      CoordinateTransform.GeoDistance_coord Sample.ops ToRad 3 Sample.p =
        { v0 := .num 10, v1 := .num 20, v2 := .num 0, v3 := .num 0 } ∧
      CoordinateTransform.GeoDistanceZ_coord Sample.ops ToRad 3 Sample.p =
        { v0 := .num 10, v1 := .num 20, v2 := .num 0, v3 := .num 0 } ∧
      CoordinateTransform.Geod_coord Sample.ops ToRad 3 Sample.p =
        { v0 := ToRad (.num 10), v1 := ToRad (.num 20), v2 := .num 0, v3 := .num 0 } ∧
      CoordinateTransform.Geod Sample.ops Sample.engine Except.ok ToRad
          (.mk (some 50) none none 3) Sample.p Sample.p =
        .ok { axis := 4,
              coord := { v0 := ToRad (.num 10), v1 := ToRad (.num 20), v2 := .num 0,
                         v3 := .num 0 } } := by
  refine ⟨by decide, by decide, rfl, rfl, rfl, rfl⟩

/-- C8, evaluated at the failing input. The compound CRS 4 has three components
with 2, 1 and 1 axes; its `AxisCount` is 3, the sum of the first two, not 4. -/
theorem AxisCount_compound_three_components :
    ((Sample.create 4).AxisCount Sample.engine Sample.ctx0).1 = .ok 3 ∧
      (Sample.create 4).items.map (fun c => (c.AxisCount Sample.engine Sample.ctx0).1) =
        [.ok 2, .ok 1, .ok 1] := by
  constructor
  · rfl
  · rfl

/-- C9. For a live CRS object that is itself a GeodeticCRS (its slot `m_geodCRS`
empty or already the alias): the property `GeodeticCRS` returns the object
itself and leaves the context untouched, so no engine call is issued, the only
change being that the slot now holds the alias.  Disposing the object then
empties the slot and nulls the handle; the alias adds no native call (the
calls are those for an empty slot), the object's own handle is destroyed by one
`proj_destroy` issued after the other cached entities are disposed, so it is
released once more than those entities release it; and a second disposal
issues no call at all. -/
theorem GeodeticCRS_self_alias (E : Engine) (create : PJ → CoordinateReferenceSystem)
    (self : CoordinateReferenceSystem) (ctx ctx' : ProjContext) (h : PJ)
    (hcls : self.cls = .geodetic) (hpj : self.m_pj = some h)
    (hslot : self.m_geodCRS = .null ∨ self.m_geodCRS = .self) :
    (self.GeodeticCRS E create ctx).1 = .ok .self ∧
      (self.GeodeticCRS E create ctx).2.2 = ctx ∧
      (self.GeodeticCRS E create ctx).2.1 = self.set_m_geodCRS .self ∧
      ((self.set_m_geodCRS .self).Dispose ctx').1.m_geodCRS = .null ∧
      ((self.set_m_geodCRS .self).Dispose ctx').1.m_pj = none ∧
      ((self.set_m_geodCRS .self).Dispose ctx').2 =
        ((self.set_m_geodCRS .null).Dispose ctx').2 ∧
      ((self.set_m_geodCRS .self).Dispose ctx').2 =
        ((((self.set_m_geodCRS .null).set_m_pj none).Dispose ctx').2).call (.proj_destroy h) ∧
      ((self.set_m_geodCRS .self).Dispose ctx').2.calls.count (.proj_destroy h) =
        (((self.set_m_geodCRS .null).set_m_pj none).Dispose ctx').2.calls.count
          (.proj_destroy h) + 1 ∧
      (((self.set_m_geodCRS .self).Dispose ctx').1.Dispose
          ((self.set_m_geodCRS .self).Dispose ctx').2).2 =
        ((self.set_m_geodCRS .self).Dispose ctx').2 := by
  cases self with
  | mk pj c cs g el da pm b dt ax it =>
    simp only [CoordinateReferenceSystem.cls, CoordinateReferenceSystem.m_pj,
      CoordinateReferenceSystem.m_geodCRS] at hcls hpj hslot
    subst hcls hpj
    have hrel : (((CoordinateReferenceSystem.mk (some h) .geodetic cs g el da pm b dt ax
        it).set_m_geodCRS .self).Dispose ctx').2 =
        (((((CoordinateReferenceSystem.mk (some h) .geodetic cs g el da pm b dt ax
          it).set_m_geodCRS .null).set_m_pj none).Dispose ctx').2).call (.proj_destroy h) := by
      cases b <;>
        simp [CoordinateReferenceSystem.Dispose, CoordinateReferenceSystem.set_m_geodCRS,
          CoordinateReferenceSystem.set_m_pj, ProjObject.destroy]
    refine ⟨?_, ?_, ?_, ?_, ?_, ?_, hrel, ?_, ?_⟩
    · rcases hslot with rfl | rfl <;>
        simp [CoordinateReferenceSystem.GeodeticCRS, CoordinateReferenceSystem.geodToBool,
          CoordinateReferenceSystem.m_geodCRS, CoordinateReferenceSystem.m_pj,
          CoordinateReferenceSystem.cls]
    · rcases hslot with rfl | rfl <;>
        simp [CoordinateReferenceSystem.GeodeticCRS, CoordinateReferenceSystem.geodToBool,
          CoordinateReferenceSystem.m_geodCRS, CoordinateReferenceSystem.m_pj,
          CoordinateReferenceSystem.cls]
    · rcases hslot with rfl | rfl <;>
        simp [CoordinateReferenceSystem.GeodeticCRS, CoordinateReferenceSystem.geodToBool,
          CoordinateReferenceSystem.m_geodCRS, CoordinateReferenceSystem.m_pj,
          CoordinateReferenceSystem.cls, CoordinateReferenceSystem.set_m_geodCRS]
    · cases b <;>
        simp [CoordinateReferenceSystem.Dispose, CoordinateReferenceSystem.set_m_geodCRS,
          CoordinateReferenceSystem.m_geodCRS]
    · cases b <;>
        simp [CoordinateReferenceSystem.Dispose, CoordinateReferenceSystem.set_m_geodCRS,
          CoordinateReferenceSystem.m_pj, ProjObject.destroy]
    · cases b <;>
        simp [CoordinateReferenceSystem.Dispose, CoordinateReferenceSystem.set_m_geodCRS]
    · rw [hrel]
      simp [ProjContext.call, List.count_append]
    · cases b <;>
        simp [CoordinateReferenceSystem.Dispose, CoordinateReferenceSystem.set_m_geodCRS,
          ProjObject.destroy, deleteSlot]

/-- Witness of C9: the geodetic CRS 1 of the sample engine; its disposal issues
the single call `proj_destroy(1)`. -/
theorem GeodeticCRS_self_alias_witness :
    ((Sample.create 1).GeodeticCRS Sample.engine Sample.create Sample.ctx0).1 = .ok .self ∧
      (((Sample.create 1).set_m_geodCRS .self).Dispose Sample.ctx0).2.calls =
        [.proj_destroy 1] :=
  ⟨(GeodeticCRS_self_alias Sample.engine Sample.create (Sample.create 1) Sample.ctx0 Sample.ctx0 1
    rfl rfl (Or.inl rfl)).1, rfl⟩

/-- C10, evaluated at the failing input. Disposal never touches `m_datum` and
`m_distanceTransform`.  CRS 2 after a read of `Datum` caches the datum 302;
disposing the CRS leaves that datum in its slot with its handle, and the only
native call is `proj_destroy(2)`: the datum is never released, whereas a cached
coordinate system (102) is.  A cached distance transform (50) is not released
either. -/
theorem Dispose_leaves_datum_and_distanceTransform :
    (∀ (self : CoordinateReferenceSystem) (ctx : ProjContext),
      (self.Dispose ctx).1.m_datum = self.m_datum ∧
        (self.Dispose ctx).1.m_distanceTransform = self.m_distanceTransform) ∧
    ((Sample.create 2).Datum Sample.engine Sample.ctx0).2.1.m_datum = some { m_pj := some 302 } ∧
    ((((Sample.create 2).Datum Sample.engine Sample.ctx0).2.1.Dispose Sample.ctx0).1.m_datum =
      some { m_pj := some 302 }) ∧
    ((((Sample.create 2).Datum Sample.engine Sample.ctx0).2.1.Dispose Sample.ctx0).2.calls =
      [.proj_destroy 2]) ∧
    ((((Sample.create 2).CoordinateSystem Sample.engine Sample.ctx0).2.1.Dispose
      Sample.ctx0).2.calls = [.proj_destroy 102, .proj_destroy 2]) ∧
    ((CoordinateReferenceSystem.mk (some 2) .plain none .null none none none none
        (some (Sample.transform 50)) 0 []).Dispose Sample.ctx0).2.calls = [.proj_destroy 2] := by
  refine ⟨?_, rfl, rfl, rfl, rfl, rfl⟩
  intro self ctx
  cases self with
  | mk pj c cs g el da pm b dt ax it =>
    cases b <;> cases g <;>
      simp [CoordinateReferenceSystem.Dispose, CoordinateReferenceSystem.m_datum,
        CoordinateReferenceSystem.m_distanceTransform]

/-- Counterexample to C12 as stated: two reads of `UsageArea` issue the engine
query twice; the name of object 3 is null in the sample engine, and two reads
of `Name` (as of `Scope`) ask the engine twice. -/
theorem metadata_queried_again :
    ((ProjObjectInfo.new 1).UsageArea Sample.engine
        ((ProjObjectInfo.new 1).UsageArea Sample.engine Sample.ctx0).2.2).2.2.calls =
        [.proj_get_area_of_use 1, .proj_get_area_of_use 1] ∧
      ((ProjObjectInfo.new 3).Name Sample.engine Sample.ctx0).1 = .ok none ∧
      (((ProjObjectInfo.new 3).Name Sample.engine Sample.ctx0).2.1.Name Sample.engine
        ((ProjObjectInfo.new 3).Name Sample.engine Sample.ctx0).2.2).2.2.calls =
        [.proj_get_name 3, .proj_get_name 3] ∧
      (((ProjObjectInfo.new 3).Scope Sample.engine Sample.ctx0).2.1.Scope Sample.engine
        ((ProjObjectInfo.new 3).Scope Sample.engine Sample.ctx0).2.2).2.2.calls =
        [.proj_get_scope 3, .proj_get_scope 3] := by
  refine ⟨rfl, rfl, rfl, rfl⟩

/-- C12, as amended. For a live ProjObject: a second read of `Definition`
returns the value of the first read and issues no native call; a second read
of `Name` (of `Scope`) does so once the first read obtained a non-null value,
but after a null answer it asks the engine again; a second read of
`Identifiers` returns the list object of the first; `UsageArea` asks the
engine on every read and stores nothing in the object. -/
theorem metadata_memoized (E : Engine) (self : ProjObjectInfo) (ctx ctx2 : ProjContext) (h : PJ)
    (hpj : self.m_pj = some h) :
    (self.Definition E ctx).2.1.Definition E ctx2 =
        ((self.Definition E ctx).1, (self.Definition E ctx).2.1, ctx2) ∧
    (∀ n, (self.Name E ctx).1 = .ok (some n) →
      (self.Name E ctx).2.1.Name E ctx2 = (.ok (some n), (self.Name E ctx).2.1, ctx2)) ∧
    (∀ s, (self.Scope E ctx).1 = .ok (some s) →
      (self.Scope E ctx).2.1.Scope E ctx2 = (.ok (some s), (self.Scope E ctx).2.1, ctx2)) ∧
    (self.Identifiers ctx).2.1.Identifiers ctx2 =
        ((self.Identifiers ctx).1, (self.Identifiers ctx).2.1, ctx2) ∧
    ((self.Name E ctx).1 = .ok none →
      ((self.Name E ctx).2.1.Name E ctx2).2.2 = ctx2.call (.proj_get_name h)) ∧
    ((self.Scope E ctx).1 = .ok none →
      ((self.Scope E ctx).2.1.Scope E ctx2).2.2 = ctx2.call (.proj_get_scope h)) ∧
    (self.UsageArea E ctx).2.2 = ctx.call (.proj_get_area_of_use h) ∧
    (self.UsageArea E ctx).2.1 = self := by
  obtain ⟨pj, nm, df, sc, il⟩ := self
  simp only at hpj
  subst hpj
  refine ⟨?_, ?_, ?_, ?_, ?_, ?_, ?_, ?_⟩
  · cases df <;> simp [ProjObjectInfo.Definition, toPJ]
  · intro n
    cases nm with
    | some v => simp [ProjObjectInfo.Name]
    | none =>
      cases hq : E.proj_get_name h <;> simp [ProjObjectInfo.Name, toPJ, hq]
  · intro s
    cases sc with
    | some v => simp [ProjObjectInfo.Scope]
    | none =>
      cases hq : E.proj_get_scope h <;> simp [ProjObjectInfo.Scope, toPJ, hq]
  · cases il <;> simp [ProjObjectInfo.Identifiers]
  · cases nm with
    | some v => simp [ProjObjectInfo.Name]
    | none =>
      cases hq : E.proj_get_name h <;> simp [ProjObjectInfo.Name, toPJ, hq]
  · cases sc with
    | some v => simp [ProjObjectInfo.Scope]
    | none =>
      cases hq : E.proj_get_scope h <;> simp [ProjObjectInfo.Scope, toPJ, hq]
  · cases hq : E.proj_get_area_of_use h <;> simp [ProjObjectInfo.UsageArea, toPJ, hq]
  · cases hq : E.proj_get_area_of_use h <;> simp [ProjObjectInfo.UsageArea, toPJ, hq]

/-- Witness of C12 as amended: object 1 of the sample engine has the name
"WGS 84"; the second read of `Name` returns it from the cache. -/
theorem metadata_memoized_witness :
    ((ProjObjectInfo.new 1).Name Sample.engine Sample.ctx0).2.1.Name Sample.engine Sample.ctx0 =
      (.ok (some "WGS 84"), ((ProjObjectInfo.new 1).Name Sample.engine Sample.ctx0).2.1,
        Sample.ctx0) :=
  (metadata_memoized Sample.engine (ProjObjectInfo.new 1) Sample.ctx0 Sample.ctx0 1 rfl).2.1
    "WGS 84" rfl

/-- C13. The first disposal of a ProjObject issues one `proj_destroy` of its
handle and nulls the handle; a further disposal issues no native call and
changes nothing; and on the disposed object the conversion to `PJ*` throws
ObjectDisposedException, as does the property `Type` that goes through it,
while the conversion to `bool` is false. -/
theorem handle_released_once (E : Engine) (o : ProjObject) (ctx ctx2 : ProjContext) (h : PJ)
    (hpj : o.m_pj = some h) :
    (o.Dispose ctx).2 = ctx.call (.proj_destroy h) ∧
      (o.Dispose ctx).1.m_pj = none ∧
      (o.Dispose ctx).1.Dispose ctx2 = ((o.Dispose ctx).1, ctx2) ∧
      toPJ (o.Dispose ctx).1.m_pj = .error (.ObjectDisposedException "PJ disposed") ∧
      (ProjObject.Type E (o.Dispose ctx).1.m_pj ctx2).1 =
        .error (.ObjectDisposedException "PJ disposed") ∧
      ProjObject.toBool (some (o.Dispose ctx).1) = false := by
  obtain ⟨pj⟩ := o
  simp only at hpj
  subst hpj
  simp [ProjObject.Dispose, ProjObject.destroy, toPJ, ProjObject.Type, ProjObject.toBool]

/-- Witness of C13: the wrapper around handle 102. -/
theorem handle_released_once_witness :
    (ProjObject.Dispose { m_pj := some 102 } Sample.ctx0).2.calls = [.proj_destroy 102] ∧
      toPJ (ProjObject.Dispose { m_pj := some 102 } Sample.ctx0).1.m_pj =
        .error (.ObjectDisposedException "PJ disposed") :=
  ⟨congrArg ProjContext.calls
      (handle_released_once Sample.engine { m_pj := some 102 } Sample.ctx0 Sample.ctx0 102 rfl).1,
    (handle_released_once Sample.engine { m_pj := some 102 } Sample.ctx0 Sample.ctx0 102
      rfl).2.2.2.1⟩

/-- C14. When the last-error slot holds a logged message, `ConstructException`
returns a ProjException whose message is the translated errno text and whose
inner exception carries exactly that message, and it empties the slot; when the
slot is empty it returns a ProjException with the translated errno text and no
inner exception.  Hence the second of two consecutive calls never carries a
logged text. -/
theorem ConstructException_chain (E : Engine) (msg : String) (calls : List Call)
    (ctx : ProjContext) :
    (ProjContext.ConstructException E { m_lastError := some msg, calls := calls }).1 =
        .ProjException (E.proj_errno_string E.proj_context_errno) (some msg) ∧
      (ProjContext.ConstructException E { m_lastError := some msg, calls := calls }).2.m_lastError =
        none ∧
      (ProjContext.ConstructException E { m_lastError := none, calls := calls }).1 =
        .ProjException (E.proj_errno_string E.proj_context_errno) none ∧
      (ProjContext.ConstructException E { m_lastError := none, calls := calls }).2.m_lastError =
        none ∧
      (ProjContext.ConstructException E (ProjContext.ConstructException E ctx).2).1 =
        .ProjException (E.proj_errno_string E.proj_context_errno) none := by
  refine ⟨rfl, rfl, rfl, rfl, ?_⟩
  obtain ⟨le, cs⟩ := ctx
  cases le <;> rfl

/-- C17, evaluated at the failing input. For CRS 3 of the sample engine the
geodetic-CRS query returns a null handle; the property `DistanceTransform`,
which reads `GeodeticCRS` in its test, throws the exception that the Context
constructs instead of returning `nullptr`, whatever the transform factory is.
No transform is built: the slot stays empty. -/
theorem DistanceTransform_throws_without_geodetic
    (Create3 : CoordinateReferenceSystem → CoordinateReferenceSystem → ProjContext →
      Except Exn (Option CoordinateTransform) × ProjContext)
    (EnsureDistance : CoordinateTransform → ProjContext →
      Except Exn CoordinateTransform × ProjContext) :
    Sample.engine.proj_crs_get_geodetic_crs 3 = none ∧
      ((Sample.create 3).DistanceTransform Sample.engine Sample.create Create3 EnsureDistance
        Sample.ctx0).1 = .error (.ProjException (some "Unknown error") none) ∧
      ((Sample.create 3).DistanceTransform Sample.engine Sample.create Create3 EnsureDistance
        Sample.ctx0).2.1.m_distanceTransform = none := by
  refine ⟨rfl, rfl, rfl⟩

/-- C18, evaluated at the failing input. Whatever the options are, the WKT type
handed to `proj_as_wkt` is WKT2_2019: with `WktType` set to WKT1_GDAL the
recorded call still carries WKT2_2019.  The option list is as claimed: it holds
"STRICT=NO" exactly when the options are absent or not strict,
"INDENTATION_WIDTH=0" exactly when `NoIndentation` is set, and an OUTPUT_AXIS
entry exactly when `WriteAxis` has a value. -/
theorem AsWellKnownText_ignores_WktType :
    (∀ (E : Engine) (h : PJ) (options : Option WktOptions) (ctx : ProjContext),
      (ProjObject.AsWellKnownText E (some h) options ctx).2.calls =
        ctx.calls ++ [.proj_as_wkt h .WKT2_2019 (AsWellKnownText_opts options)]) ∧
    (ProjObject.AsWellKnownText Sample.engine (some 1)
        (some { WktOptions.new with WktType := .WKT1_GDAL }) Sample.ctx0).2.calls =
      [.proj_as_wkt 1 .WKT2_2019 ["STRICT=NO"]] ∧
    (∀ options : Option WktOptions,
      ("STRICT=NO" ∈ AsWellKnownText_opts options ↔
        (options = none ∨ ∃ o, options = some o ∧ o.Strict = false)) ∧
      ("INDENTATION_WIDTH=0" ∈ AsWellKnownText_opts options ↔
        ∃ o, options = some o ∧ o.NoIndentation = true) ∧
      (("OUTPUT_AXIS=YES" ∈ AsWellKnownText_opts options ∨
          "OUTPUT_AXIS=NO" ∈ AsWellKnownText_opts options) ↔
        ∃ o, options = some o ∧ o.WriteAxis ≠ none)) := by
  refine ⟨fun E h options ctx => rfl, rfl, ?_⟩
  intro options
  cases options with
  | none => simp [AsWellKnownText_opts]
  | some o =>
    obtain ⟨tp, sl, ni, wa, st, al⟩ := o
    have m1 : ∀ (c : Prop) [Decidable c] (x a : String),
        x ∈ (if c then [a] else []) ↔ (c ∧ x = a) := by
      intro c _ x a
      by_cases hc : c <;> simp [hc]
    have m2 : ∀ (x : String) (w : Option Bool),
        x ∈ (match w with
          | some true => ["OUTPUT_AXIS=YES"]
          | some false => ["OUTPUT_AXIS=NO"]
          | none => []) ↔
        ((w = some true ∧ x = "OUTPUT_AXIS=YES") ∨ (w = some false ∧ x = "OUTPUT_AXIS=NO")) := by
      intro x w
      rcases w with _ | _ | _ <;> simp
    have m3 : ∀ (c : Prop) [Decidable c] (x a b : String),
        x ∈ [if c then a else b] ↔ ((c ∧ x = a) ∨ (¬ c ∧ x = b)) := by
      intro c _ x a b
      by_cases hc : c <;> simp [hc]
    simp only [AsWellKnownText_opts, List.mem_append, m1, m2, m3, List.mem_singleton]
    refine ⟨?_, ?_, ?_⟩
    · have d1 : "STRICT=NO" ≠ "MULTILINE=NO" := by decide
      have d2 : "STRICT=NO" ≠ "MULTILINE=YES" := by decide
      have d3 : "STRICT=NO" ≠ "INDENTATION_WIDTH=0" := by decide
      have d4 : "STRICT=NO" ≠ "OUTPUT_AXIS=YES" := by decide
      have d5 : "STRICT=NO" ≠ "OUTPUT_AXIS=NO" := by decide
      have d6 : "STRICT=NO" ≠ "ALLOW_ELLIPSOIDAL_HEIGHT_AS_VERTICAL_CRS=YES" := by decide
      by_cases ht : tp = PJ_WKT_TYPE.WKT1_ESRI <;> simp [ht, d1, d2, d3, d4, d5, d6]
    · have d1 : "INDENTATION_WIDTH=0" ≠ "MULTILINE=NO" := by decide
      have d2 : "INDENTATION_WIDTH=0" ≠ "MULTILINE=YES" := by decide
      have d3 : "INDENTATION_WIDTH=0" ≠ "STRICT=NO" := by decide
      have d4 : "INDENTATION_WIDTH=0" ≠ "OUTPUT_AXIS=YES" := by decide
      have d5 : "INDENTATION_WIDTH=0" ≠ "OUTPUT_AXIS=NO" := by decide
      have d6 : "INDENTATION_WIDTH=0" ≠ "ALLOW_ELLIPSOIDAL_HEIGHT_AS_VERTICAL_CRS=YES" := by
        decide
      by_cases ht : tp = PJ_WKT_TYPE.WKT1_ESRI <;> simp [ht, d1, d2, d3, d4, d5, d6]
    · have d1 : "OUTPUT_AXIS=YES" ≠ "MULTILINE=NO" := by decide
      have d2 : "OUTPUT_AXIS=YES" ≠ "MULTILINE=YES" := by decide
      have d3 : "OUTPUT_AXIS=YES" ≠ "STRICT=NO" := by decide
      have d4 : "OUTPUT_AXIS=YES" ≠ "INDENTATION_WIDTH=0" := by decide
      have d5 : "OUTPUT_AXIS=YES" ≠ "OUTPUT_AXIS=NO" := by decide
      have d6 : "OUTPUT_AXIS=YES" ≠ "ALLOW_ELLIPSOIDAL_HEIGHT_AS_VERTICAL_CRS=YES" := by decide
      have e1 : "OUTPUT_AXIS=NO" ≠ "MULTILINE=NO" := by decide
      have e2 : "OUTPUT_AXIS=NO" ≠ "MULTILINE=YES" := by decide
      have e3 : "OUTPUT_AXIS=NO" ≠ "STRICT=NO" := by decide
      have e4 : "OUTPUT_AXIS=NO" ≠ "INDENTATION_WIDTH=0" := by decide
      have e5 : "OUTPUT_AXIS=NO" ≠ "OUTPUT_AXIS=YES" := by decide
      have e6 : "OUTPUT_AXIS=NO" ≠ "ALLOW_ELLIPSOIDAL_HEIGHT_AS_VERTICAL_CRS=YES" := by decide
      by_cases ht : tp = PJ_WKT_TYPE.WKT1_ESRI <;>
        rcases wa with _ | _ | _ <;>
        simp [ht, d1, d2, d3, d4, d5, d6, e1, e2, e3, e4, e5, e6]

/-- C19, evaluated at the failing input. The factory context that `Create`
hands to the engine carries USE_IF_NO_DIRECT_TRANSFORMATION for the policy
Always, the same setting as for Auto, and never carries USE_ALWAYS; Never gives
USE_NEVER. -/
theorem intermediate_crs_Always_is_Auto (E : Engine) (options : CoordinateTransformOptions) :
    (operationFactoryContext E { options with IntermediateCrsUsage := .Always
      }).allow_use_intermediate_crs = .IF_NO_DIRECT_TRANSFORMATION ∧
    (operationFactoryContext E { options with IntermediateCrsUsage := .Auto
      }).allow_use_intermediate_crs = .IF_NO_DIRECT_TRANSFORMATION ∧
    (operationFactoryContext E { options with IntermediateCrsUsage := .Never
      }).allow_use_intermediate_crs = .NEVER ∧
    (operationFactoryContext E options).allow_use_intermediate_crs ≠ .ALWAYS := by
  refine ⟨rfl, rfl, rfl, ?_⟩
  obtain ⟨a, ar, nb, ac, nd, up, iu, us⟩ := options
  cases iu <;> simp [operationFactoryContext]

/-- The base getter returns the value it leaves in `m_axis`, or throws. -/
theorem AxisCount_base_result (E : Engine) (self : CoordinateReferenceSystem)
    (ctx : ProjContext) :
    (self.AxisCount_base E ctx).1 = .ok (self.AxisCount_base E ctx).2.1.m_axis ∨
      ∃ e, (self.AxisCount_base E ctx).1 = .error e := by
  unfold CoordinateReferenceSystem.AxisCount_base
  split_ifs with h1 h2
  · exact Or.inl rfl
  · exact Or.inl rfl
  · split
    · exact Or.inr ⟨_, rfl⟩
    · split_ifs with h3
      · exact Or.inl rfl
      · split
        · exact Or.inr ⟨_, rfl⟩
        · exact Or.inl rfl

/-- The value that the base getter returns is the one it leaves in `m_axis`. -/
theorem AxisCount_base_result_axis (E : Engine) (self : CoordinateReferenceSystem)
    (ctx : ProjContext) (v : Int) (h : (self.AxisCount_base E ctx).1 = .ok v) :
    (self.AxisCount_base E ctx).2.1.m_axis = v := by
  rcases AxisCount_base_result E self ctx with h2 | ⟨e, h2⟩
  · rw [h2] at h
    simpa using h
  · rw [h2] at h
    simp at h

/-- A non-zero `m_axis` is returned as it is: no native call, no change. -/
theorem AxisCount_memo (E : Engine) (self : CoordinateReferenceSystem) (ctx : ProjContext)
    (hax : self.m_axis ≠ 0) :
    self.AxisCount E ctx = (.ok self.m_axis, self, ctx) := by
  have hb : self.AxisCount_base E ctx = (.ok self.m_axis, self, ctx) := by
    simp [CoordinateReferenceSystem.AxisCount_base, hax]
  cases self with
  | mk pj c cs g el da pm b dt ax it =>
    cases c with
    | plain => rw [AxisCount_of_not_list E _ ctx (by simp [CoordinateReferenceSystem.cls])]; exact hb
    | geodetic =>
      rw [AxisCount_of_not_list E _ ctx (by simp [CoordinateReferenceSystem.cls])]; exact hb
    | list =>
      simp only [CoordinateReferenceSystem.m_axis] at hax
      rcases it with _ | ⟨i0, _ | ⟨i1, rest⟩⟩ <;>
        simp [CoordinateReferenceSystem.AxisCount, hb, CoordinateReferenceSystem.m_axis, hax]

/-- The value that the getter of a list returns is the one it leaves in
`m_axis`. -/
theorem AxisCount_list_result_axis (E : Engine) (self : CoordinateReferenceSystem)
    (ctx : ProjContext) (n : Int) (hc : self.cls = .list)
    (h : (self.AxisCount E ctx).1 = .ok n) :
    (self.AxisCount E ctx).2.1.m_axis = n := by
  cases self with
  | mk pj c cs g el da pm b dt ax it =>
    simp only [CoordinateReferenceSystem.cls] at hc
    subst hc
    have hbase := AxisCount_base_result_axis E (.mk pj .list cs g el da pm b dt ax it) ctx
    rcases hb : CoordinateReferenceSystem.AxisCount_base E
      (.mk pj .list cs g el da pm b dt ax it) ctx with ⟨r, s1, c1⟩
    rw [hb] at hbase
    cases r with
    | error e =>
      rcases it with _ | ⟨i0, _ | ⟨i1, rest⟩⟩ <;>
        simp [CoordinateReferenceSystem.AxisCount, hb] at h
    | ok n0 =>
      have hs1 : s1.m_axis = n0 := hbase n0 rfl
      by_cases hn0 : n0 = 0
      · subst hn0
        rcases it with _ | ⟨i0, _ | ⟨i1, rest⟩⟩
        · simp [CoordinateReferenceSystem.AxisCount, hb] at h
        · rcases h0 : CoordinateReferenceSystem.AxisCount E i0 c1 with ⟨r0, j0, c2⟩
          cases r0 <;> simp [CoordinateReferenceSystem.AxisCount, hb, h0] at h
        · rcases h0 : CoordinateReferenceSystem.AxisCount E i0 c1 with ⟨r0, j0, c2⟩
          cases r0 with
          | error e => simp [CoordinateReferenceSystem.AxisCount, hb, h0] at h
          | ok m0 =>
            rcases h1 : CoordinateReferenceSystem.AxisCount E i1 c2 with ⟨r1, j1, c3⟩
            cases r1 with
            | error e => simp [CoordinateReferenceSystem.AxisCount, hb, h0, h1] at h
            | ok m1 =>
              simp only [CoordinateReferenceSystem.AxisCount, hb, h0, h1] at h ⊢
              simp at h
              cases s1
              simp [CoordinateReferenceSystem.set_items, CoordinateReferenceSystem.set_m_axis,
                CoordinateReferenceSystem.m_axis, h]
      · rcases it with _ | ⟨i0, _ | ⟨i1, rest⟩⟩ <;>
          simp [CoordinateReferenceSystem.AxisCount, hb, hn0] at h ⊢ <;>
          simp [← h, hs1]

/-- On a live CRS the property `CoordinateSystem` does not throw. -/
theorem CoordinateSystem_live_ok (E : Engine) (self : CoordinateReferenceSystem)
    (ctx : ProjContext) (h : PJ) (hpj : self.m_pj = some h) :
    ∃ cs, (self.CoordinateSystem E ctx).1 = .ok cs := by
  unfold CoordinateReferenceSystem.CoordinateSystem
  simp only [hpj, ProjObject.Type]
  split_ifs with h1
  · exact ⟨_, rfl⟩
  · cases hq : E.proj_crs_get_coordinate_system h <;> simp
  · exact ⟨_, rfl⟩

/-- The value that the virtual `AxisCount` returns is the one it leaves in
`m_axis`. -/
theorem AxisCount_result_axis (E : Engine) (self : CoordinateReferenceSystem)
    (ctx : ProjContext) (n : Int) (h : (self.AxisCount E ctx).1 = .ok n) :
    (self.AxisCount E ctx).2.1.m_axis = n := by
  by_cases hc : self.cls = .list
  · exact AxisCount_list_result_axis E self ctx n hc h
  · rw [AxisCount_of_not_list E self ctx hc] at h ⊢
    exact AxisCount_base_result_axis E self ctx n h

/-- C20, as amended. For a live, unresolved CRS that is neither a list nor of
compound type, `AxisCount` returns a non-zero number: the axis count of the
coordinate system when the property `CoordinateSystem` yields a live one whose
count is not zero, and the sentinel -1 otherwise; every later read returns the
same number, changes nothing and issues no native call.  For every CRS, lists
included, once a read has returned a NON-ZERO number every later read returns
it without a native call. -/
theorem AxisCount_resolved_memoized (E : Engine) (self : CoordinateReferenceSystem)
    (ctx ctx2 : ProjContext) (h : PJ) (hpj : self.m_pj = some h) :
    (self.cls ≠ .list → self.m_axis = 0 → E.proj_get_type h ≠ .CompoundCrs →
      ∃ n, (self.AxisCount E ctx).1 = .ok n ∧ n ≠ 0 ∧
        (∀ c, (self.CoordinateSystem E (ctx.call (.proj_get_type h))).1 =
            .ok (some { m_pj := some c }) →
          E.proj_cs_get_axis_count c ≠ 0 → n = E.proj_cs_get_axis_count c) ∧
        ((∀ c, (self.CoordinateSystem E (ctx.call (.proj_get_type h))).1 =
            .ok (some { m_pj := some c }) →
          E.proj_cs_get_axis_count c = 0) → n = -1) ∧
        (self.AxisCount E ctx).2.1.AxisCount E ctx2 =
          (.ok n, (self.AxisCount E ctx).2.1, ctx2)) ∧
    (∀ n, (self.AxisCount E ctx).1 = .ok n → n ≠ 0 →
      (self.AxisCount E ctx).2.1.AxisCount E ctx2 =
        (.ok n, (self.AxisCount E ctx).2.1, ctx2)) := by
  have part2 : ∀ n, (self.AxisCount E ctx).1 = .ok n → n ≠ 0 →
      (self.AxisCount E ctx).2.1.AxisCount E ctx2 =
        (.ok n, (self.AxisCount E ctx).2.1, ctx2) := by
    intro n hn hne
    have hax := AxisCount_result_axis E self ctx n hn
    have := AxisCount_memo E (self.AxisCount E ctx).2.1 ctx2 (by rw [hax]; exact hne)
    rw [this, hax]
  refine ⟨?_, part2⟩
  intro hc hax ht
  obtain ⟨cs, hcs⟩ := CoordinateSystem_live_ok E self (ctx.call (.proj_get_type h)) h hpj
  have key : ∃ n, (self.AxisCount E ctx).1 = .ok n ∧ n ≠ 0 ∧
      (∀ c, cs = some { m_pj := some c } →
          E.proj_cs_get_axis_count c ≠ 0 → n = E.proj_cs_get_axis_count c) ∧
      ((∀ c, cs = some { m_pj := some c } → E.proj_cs_get_axis_count c = 0) → n = -1) := by
    rw [AxisCount_of_not_list E self ctx hc]
    rcases hq : self.CoordinateSystem E (ctx.call (.proj_get_type h)) with ⟨r, s2, c2⟩
    rw [hq] at hcs
    simp only at hcs
    subst hcs
    have hs2 : s2.m_axis = 0 := by
      have : s2 = (self.CoordinateSystem E (ctx.call (.proj_get_type h))).2.1 := by rw [hq]
      rw [this]
      unfold CoordinateReferenceSystem.CoordinateSystem
      simp only [hpj, ProjObject.Type]
      split_ifs with h1
      · exact hax
      · cases hq2 : E.proj_crs_get_coordinate_system h with
        | none => simpa using hax
        | some v =>
          cases self
          simpa [CoordinateReferenceSystem.set_m_cs, CoordinateReferenceSystem.m_axis] using hax
    unfold CoordinateReferenceSystem.AxisCount_base
    simp only [hax, hpj, ProjObject.Type, ht, hq]
    rcases cs with _ | ⟨_ | c⟩
    · cases s2
      simp only [CoordinateReferenceSystem.m_axis] at hs2
      simp [hs2, CoordinateReferenceSystem.set_m_axis, CoordinateReferenceSystem.m_axis]
    · cases s2
      simp only [CoordinateReferenceSystem.m_axis] at hs2
      simp [hs2, CoordinateReferenceSystem.set_m_axis, CoordinateReferenceSystem.m_axis]
    · cases s2
      by_cases h0 : E.proj_cs_get_axis_count c = 0
      · simp [CoordinateReferenceSystem.set_m_axis, CoordinateReferenceSystem.m_axis, h0]
      · simp [CoordinateReferenceSystem.set_m_axis, CoordinateReferenceSystem.m_axis, h0]
  obtain ⟨n, h1, h2, h3, h4⟩ := key
  refine ⟨n, h1, h2, ?_, ?_, part2 n h1 h2⟩
  · intro c hc2 hne
    rw [hcs] at hc2
    simp only [Except.ok.injEq] at hc2
    exact h3 c hc2 hne
  · intro hall
    apply h4
    intro c hc2
    apply hall c
    rw [hcs, hc2]

/-- Witness of C20 as amended: CRS 2 of the sample engine resolves to two axes
and the second read is answered from `m_axis`. -/
theorem AxisCount_resolved_memoized_witness :
    ((Sample.create 2).AxisCount Sample.engine Sample.ctx0).2.1.AxisCount Sample.engine
        Sample.ctx0 =
      (.ok 2, ((Sample.create 2).AxisCount Sample.engine Sample.ctx0).2.1, Sample.ctx0) :=
  (AxisCount_resolved_memoized Sample.engine (Sample.create 2) Sample.ctx0 Sample.ctx0 2 rfl).2
    2 rfl (by decide)

/-- Counterexample to C20 as stated: the compound CRS 9 with the components 6
(one axis) and 3 (no coordinate system, hence -1) sums to 0; the zero is what
`m_axis` already held, so the second read goes through the whole getter again
and asks the engine for the type of the object once more. -/
theorem AxisCount_zero_sum_not_memoized :
    ((CoordinateReferenceSystem.new 9 .list
        [.new 6 .plain [], .new 3 .plain []]).AxisCount Sample.engine Sample.ctx0).1 = .ok 0 ∧
      ((CoordinateReferenceSystem.new 9 .list
        [.new 6 .plain [], .new 3 .plain []]).AxisCount Sample.engine Sample.ctx0).2.1.m_axis =
        0 ∧
      (((CoordinateReferenceSystem.new 9 .list
        [.new 6 .plain [], .new 3 .plain []]).AxisCount Sample.engine
          Sample.ctx0).2.1.AxisCount Sample.engine Sample.ctx0).2.2.calls =
        [.proj_get_type 9] := by
  refine ⟨rfl, rfl, rfl⟩

/-- Counterexample to C21 as stated: nothing can be derived from CRS 3 of the
sample engine.  The first read of `Datum` resolves to absent after the datum
and the datum-ensemble query; the second read, on the object and the context
that the first one left, returns absent again and has issued both queries a
second time.  Likewise two reads of `BaseCRS` issue the source-CRS query
twice. -/
theorem absent_relation_queried_again :
    ((Sample.create 3).Datum Sample.engine Sample.ctx0).1 = .ok none ∧
      ((Sample.create 3).Datum Sample.engine Sample.ctx0).2.2.calls =
        [.proj_crs_get_datum 3, .proj_crs_get_datum_ensemble 3] ∧
      ((((Sample.create 3).Datum Sample.engine Sample.ctx0).2.1.Datum Sample.engine
        ((Sample.create 3).Datum Sample.engine Sample.ctx0).2.2).1 = .ok none) ∧
      (((Sample.create 3).Datum Sample.engine Sample.ctx0).2.1.Datum Sample.engine
        ((Sample.create 3).Datum Sample.engine Sample.ctx0).2.2).2.2.calls =
        [.proj_crs_get_datum 3, .proj_crs_get_datum_ensemble 3,
          .proj_crs_get_datum 3, .proj_crs_get_datum_ensemble 3] ∧
      ((Sample.create 3).BaseCRS Sample.engine Sample.create Sample.ctx0).1 = .ok none ∧
      (((Sample.create 3).BaseCRS Sample.engine Sample.create Sample.ctx0).2.1.BaseCRS
        Sample.engine Sample.create
        ((Sample.create 3).BaseCRS Sample.engine Sample.create Sample.ctx0).2.2).2.2.calls =
        [.proj_get_source_crs 3, .proj_get_source_crs 3] := by
  refine ⟨rfl, rfl, rfl, rfl, rfl, rfl⟩

/-- The slot `m_datum` after an assignment to it. -/
theorem m_datum_set_m_datum (self : CoordinateReferenceSystem) (da : Option ProjObject) :
    (self.set_m_datum da).m_datum = da := by
  cases self; rfl

/-- The slot `m_baseCrs` after an assignment to it. -/
theorem m_baseCrs_set_m_baseCrs (self : CoordinateReferenceSystem)
    (b : Option CoordinateReferenceSystem) : (self.set_m_baseCrs b).m_baseCrs = b := by
  cases self; rfl

/-- C21, as amended. The slots of `Datum` and `BaseCRS` have two states, empty
and present.  For a live CRS with an empty slot: when the engine has no datum
(and no datum ensemble), a read of `Datum` leaves the object as it was, and a
later read, on whatever context, returns absent again after issuing both
engine queries again; when the engine has no source CRS, a later read of
`BaseCRS` returns absent again after issuing the query again.  When the engine
does return a handle, the first read stores the wrapper and a later read
returns it without a native call and without a change to object or context. -/
theorem relation_cached_only_when_present (E : Engine)
    (create : PJ → CoordinateReferenceSystem) (self : CoordinateReferenceSystem) (h : PJ)
    (hpj : self.m_pj = some h) :
    (ProjObject.toBool self.m_datum = false → E.proj_crs_get_datum h = none →
        E.proj_crs_get_datum_ensemble h = none → ∀ ctx ctx2 : ProjContext,
      (self.Datum E ctx).1 = .ok none ∧ (self.Datum E ctx).2.1 = self ∧
        ((self.Datum E ctx).2.1.Datum E ctx2).1 = .ok none ∧
        ((self.Datum E ctx).2.1.Datum E ctx2).2.2.calls =
          ctx2.calls ++ [.proj_crs_get_datum h, .proj_crs_get_datum_ensemble h]) ∧
    (CoordinateReferenceSystem.toBool self.m_baseCrs = false → E.proj_get_source_crs h = none →
        ∀ ctx ctx2 : ProjContext,
      (self.BaseCRS E create ctx).1 = .ok none ∧ (self.BaseCRS E create ctx).2.1 = self ∧
        ((self.BaseCRS E create ctx).2.1.BaseCRS E create ctx2).1 = .ok none ∧
        ((self.BaseCRS E create ctx).2.1.BaseCRS E create ctx2).2.2.calls =
          ctx2.calls ++ [.proj_get_source_crs h]) ∧
    (ProjObject.toBool self.m_datum = false → ∀ pj : PJ,
        (E.proj_crs_get_datum h = some pj ∨
          (E.proj_crs_get_datum h = none ∧ E.proj_crs_get_datum_ensemble h = some pj)) →
        ∀ ctx ctx2 : ProjContext,
      (self.Datum E ctx).1 = .ok (some { m_pj := some pj }) ∧
        (self.Datum E ctx).2.1.Datum E ctx2 =
          (.ok (some { m_pj := some pj }), (self.Datum E ctx).2.1, ctx2)) ∧
    (CoordinateReferenceSystem.toBool self.m_baseCrs = false → ∀ pj : PJ,
        E.proj_get_source_crs h = some pj → (create pj).m_pj.isSome = true →
        ∀ ctx ctx2 : ProjContext,
      (self.BaseCRS E create ctx).1 = .ok (some (create pj)) ∧
        (self.BaseCRS E create ctx).2.1.BaseCRS E create ctx2 =
          (.ok (some (create pj)), (self.BaseCRS E create ctx).2.1, ctx2)) := by
  refine ⟨?_, ?_, ?_, ?_⟩
  · intro h1 h2 h3 ctx ctx2
    have e : (self.Datum E ctx).2.1 = self := by
      simp [CoordinateReferenceSystem.Datum, h1, hpj, h2, h3]
    rw [e]
    simp [CoordinateReferenceSystem.Datum, h1, hpj, h2, h3, ProjContext.ClearError,
      ProjContext.call]
  · intro h1 h2 ctx ctx2
    have e : (self.BaseCRS E create ctx).2.1 = self := by
      simp [CoordinateReferenceSystem.BaseCRS, h1, hpj, h2]
    rw [e]
    simp [CoordinateReferenceSystem.BaseCRS, h1, hpj, h2, ProjContext.ClearError,
      ProjContext.call]
  · intro h1 pj hq ctx ctx2
    have e : (self.Datum E ctx).1 = .ok (some { m_pj := some pj }) ∧
        (self.Datum E ctx).2.1 = self.set_m_datum (some { m_pj := some pj }) := by
      rcases hq with hq | ⟨hq, hq2⟩
      · simp [CoordinateReferenceSystem.Datum, h1, hpj, hq]
      · simp [CoordinateReferenceSystem.Datum, h1, hpj, hq, hq2]
    refine ⟨e.1, ?_⟩
    rw [e.2]
    simp [CoordinateReferenceSystem.Datum, m_datum_set_m_datum, ProjObject.toBool]
  · intro h1 pj hq hlive ctx ctx2
    have e : (self.BaseCRS E create ctx).1 = .ok (some (create pj)) ∧
        (self.BaseCRS E create ctx).2.1 = self.set_m_baseCrs (some (create pj)) := by
      simp [CoordinateReferenceSystem.BaseCRS, h1, hpj, hq]
    refine ⟨e.1, ?_⟩
    rw [e.2]
    simp [CoordinateReferenceSystem.BaseCRS, m_baseCrs_set_m_baseCrs,
      CoordinateReferenceSystem.toBool, hlive]

/-- Witness of C21 as amended: CRS 3 of the sample engine has no datum and no
base CRS, CRS 2 has the datum 302 and, for the engine with a derived CRS, the
base CRS 1. -/
theorem relation_cached_only_when_present_witness :
    (((Sample.create 3).Datum Sample.engine Sample.ctx0).2.1.Datum Sample.engine
        Sample.ctx0).2.2.calls = [.proj_crs_get_datum 3, .proj_crs_get_datum_ensemble 3] ∧
      (((Sample.create 3).BaseCRS Sample.engine Sample.create Sample.ctx0).2.1.BaseCRS
        Sample.engine Sample.create Sample.ctx0).2.2.calls = [.proj_get_source_crs 3] ∧
      ((Sample.create 2).Datum Sample.engine Sample.ctx0).2.1.Datum Sample.engine Sample.ctx0 =
        (.ok (some { m_pj := some 302 }),
          ((Sample.create 2).Datum Sample.engine Sample.ctx0).2.1, Sample.ctx0) ∧
      ((Sample.create 2).BaseCRS Sample.engineDerived Sample.create Sample.ctx0).2.1.BaseCRS
          Sample.engineDerived Sample.create Sample.ctx0 =
        (.ok (some (Sample.create 1)),
          ((Sample.create 2).BaseCRS Sample.engineDerived Sample.create Sample.ctx0).2.1,
          Sample.ctx0) :=
  ⟨((relation_cached_only_when_present Sample.engine Sample.create (Sample.create 3) 3 rfl).1
      rfl rfl rfl Sample.ctx0 Sample.ctx0).2.2.2,
    ((relation_cached_only_when_present Sample.engine Sample.create (Sample.create 3) 3
      rfl).2.1 rfl rfl Sample.ctx0 Sample.ctx0).2.2.2,
    ((relation_cached_only_when_present Sample.engine Sample.create (Sample.create 2) 2
      rfl).2.2.1 rfl 302 (Or.inl rfl) Sample.ctx0 Sample.ctx0).2,
    ((relation_cached_only_when_present Sample.engineDerived Sample.create (Sample.create 2) 2
      rfl).2.2.2 rfl 1 rfl rfl Sample.ctx0 Sample.ctx0).2⟩

/-- While the context is reachable, the callback keeps it reachable and touches
only its last-error slot. -/
theorem my_log_func_all_target (msgs : List (Int × Option String)) (ref : WeakReference)
    (pc : ProjContext) (h : ref.TryGetTarget = some pc) :
    ∃ e, (my_log_func_all ref msgs).TryGetTarget = some { pc with m_lastError := e } := by
  induction msgs generalizing ref pc with
  | nil => exact ⟨pc.m_lastError, by simpa [my_log_func_all] using h⟩
  | cons m rest ih =>
    have h2 : ref.target = some pc := h
    by_cases hl : m.1 = PJ_LOG_ERROR
    · obtain ⟨e, he⟩ := ih (my_log_func ref m.1 m.2).1 { pc with m_lastError := m.2 }
        (by simp [my_log_func, h2, hl, WeakReference.TryGetTarget])
      exact ⟨e, by simpa [my_log_func_all] using he⟩
    · obtain ⟨e, he⟩ := ih (my_log_func ref m.1 m.2).1 { pc with m_lastError := none }
        (by simp [my_log_func, h2, hl, WeakReference.TryGetTarget])
      exact ⟨e, by simpa [my_log_func_all] using he⟩

/-- The messages of a list followed by one more: the callback runs on the last
one from the state the others left. -/
theorem my_log_func_all_append (msgs : List (Int × Option String)) (ref : WeakReference)
    (m : Int × Option String) :
    my_log_func_all ref (msgs ++ [m]) = (my_log_func (my_log_func_all ref msgs) m.1 m.2).1 := by
  induction msgs generalizing ref with
  | nil => rfl
  | cons a rest ih => simpa [my_log_func_all] using ih (my_log_func ref a.1 a.2).1

/-- C22. The log callback on a context that is still reachable through the weak
reference: after a message of level `PJ_LOG_ERROR` the last-error slot holds
the text of that message, after a message of any other level the slot is
empty; in both cases nothing else of the context changes and `OnLogMessage` is
called once with the level and the text.  This holds whatever messages came
before: after any sequence of messages the slot is determined by the last one.
When the context is no longer reachable, the callback changes nothing and
calls nothing. -/
theorem my_log_func_last_error (ref : WeakReference) (level : Int)
    (message : Option String) :
    (∀ pc : ProjContext, ref.TryGetTarget = some pc →
      (level = PJ_LOG_ERROR →
        my_log_func ref level message =
          ({ target := some { pc with m_lastError := message } },
            [{ level := level, message := message }])) ∧
      (level ≠ PJ_LOG_ERROR →
        my_log_func ref level message =
          ({ target := some { pc with m_lastError := none } },
            [{ level := level, message := message }])) ∧
      (∀ msgs : List (Int × Option String),
        (my_log_func_all ref (msgs ++ [(level, message)])).TryGetTarget =
          some { pc with m_lastError := if level = PJ_LOG_ERROR then message else none })) ∧
    (ref.TryGetTarget = none →
      my_log_func ref level message = (ref, []) ∧
      ∀ msgs : List (Int × Option String), my_log_func_all ref msgs = ref) := by
  refine ⟨fun pc h => ⟨?_, ?_, ?_⟩, fun h => ⟨?_, ?_⟩⟩
  · intro hl
    simp [my_log_func, h, hl]
  · intro hl
    simp [my_log_func, h, hl]
  · intro msgs
    obtain ⟨e, he⟩ := my_log_func_all_target msgs ref pc h
    have he2 : (my_log_func_all ref msgs).target = some { pc with m_lastError := e } := he
    rw [my_log_func_all_append]
    by_cases hl : level = PJ_LOG_ERROR <;>
      simp [my_log_func, he2, hl, WeakReference.TryGetTarget]
  · simp [my_log_func, h]
  · intro msgs
    induction msgs with
    | nil => rfl
    | cons m rest ih => simpa [my_log_func_all, my_log_func, h] using ih

/-- Witness of C22: on the fresh sample context an error-level message "bad
grid" fills the slot, also after a debug message and an earlier error; a
collected context is left alone. -/
theorem my_log_func_last_error_witness :
    my_log_func { target := some Sample.ctx0 } PJ_LOG_ERROR (some "bad grid") =
        ({ target := some { m_lastError := some "bad grid", calls := [] } },
          [{ level := 1, message := some "bad grid" }]) ∧
      (my_log_func_all { target := some Sample.ctx0 }
        ([(2, some "trace"), (1, some "first")] ++ [(PJ_LOG_ERROR, some "bad grid")])).TryGetTarget =
        some { m_lastError := some "bad grid", calls := [] } ∧
      my_log_func { target := none } PJ_LOG_ERROR (some "bad grid") = ({ target := none }, []) :=
  ⟨((my_log_func_last_error { target := some Sample.ctx0 } PJ_LOG_ERROR (some "bad grid")).1
      Sample.ctx0 rfl).1 rfl,
    ((my_log_func_last_error { target := some Sample.ctx0 } PJ_LOG_ERROR (some "bad grid")).1
      Sample.ctx0 rfl).2.2 [(2, some "trace"), (1, some "first")],
    ((my_log_func_last_error { target := none } PJ_LOG_ERROR (some "bad grid")).2 rfl).1⟩

/-- C23, evaluated at the failing input. Whenever none of the five local
candidates exists and network access is enabled, the one path handed to
`DownloadProjDB` is the user-writable directory combined with the versioned
name of `Path::Combine("..", file)`: the test of the fifth candidate has
assigned that path to `file`.  For the requested name "grid.tif" on the sample
file system this is "/home/user/proj/proj9.1.0-../grid.tif", not the third
candidate "/home/user/proj/proj9.1.0-grid.tif". -/
theorem OnFindFile_downloads_parent_relative_name :
    (∀ (E : Engine) (fs : FileSystem) (PROJ_VERSION : String)
        (DownloadProjDB : String → Except Exn FileSystem) (file : String)
        (foundFile : Option String) (userDir : String),
      E.proj_context_get_user_writable_directory = some userDir →
      (OnFindFile_candidates fs PROJ_VERSION userDir file).find? fs.Exists = none →
      E.proj_context_is_network_enabled = true →
      (ProjContext.OnFindFile E fs PROJ_VERSION DownloadProjDB file foundFile).downloads =
        [fs.Combine userDir ("proj" ++ PROJ_VERSION ++ "-" ++ fs.Combine ".." file)]) ∧
    (OnFindFile_candidates Sample.fs "9.1.0" "/home/user/proj" "grid.tif").find?
        Sample.fs.Exists = none ∧
    (ProjContext.OnFindFile Sample.engineNet Sample.fs "9.1.0" Sample.noDownload "grid.tif"
        none).downloads = ["/home/user/proj/proj9.1.0-../grid.tif"] ∧
    (OnFindFile_candidates Sample.fs "9.1.0" "/home/user/proj" "grid.tif")[2]? =
      some "/home/user/proj/proj9.1.0-grid.tif" := by
  refine ⟨?_, by decide, by decide, by decide⟩
  intro E fs PROJ_VERSION DownloadProjDB file foundFile userDir hdir hnone hnet
  unfold OnFindFile_candidates at hnone
  simp only [List.find?] at hnone
  unfold ProjContext.OnFindFile
  simp only [hdir]
  by_cases h1 : fs.Exists (fs.Combine userDir file) = true
  · simp [h1] at hnone
  · by_cases h2 : fs.Exists (ProjContext.EnvCombine fs "PROJ_LIB" file) = true
    · simp [h1, h2] at hnone
    · by_cases h3 : fs.Exists (fs.Combine userDir ("proj" ++ PROJ_VERSION ++ "-" ++ file)) = true
      · simp [h1, h2, h3] at hnone
      · by_cases h4 : fs.Exists file = true
        · simp [h1, h2, h3, h4] at hnone
        · by_cases h5 : fs.Exists (fs.Combine ".." file) = true
          · simp [h1, h2, h3, h4, h5] at hnone
          · simp only [h1, h2, h3, h4, h5, hnet]
            cases hd : DownloadProjDB
                (fs.Combine userDir ("proj" ++ PROJ_VERSION ++ "-" ++ fs.Combine ".." file)) with
            | error e => by_cases hc : OnFindFile_catches e = true <;> simp [hc]
            | ok fs2 =>
              by_cases he : fs2.Exists (fs.Combine userDir
                  ("proj" ++ PROJ_VERSION ++ "-" ++ fs.Combine ".." file)) = true <;>
                simp [he]

end SharpProj
